import Mathlib

/-!
# A verification development for the dsat-math generator/grader/guardrail core

This file embeds the deterministic problem-generator and grader engine of
`backend/app/generators.py` and the guardrail validation layer of
`backend/app/guardrails.py` into Lean, and proves (or refutes) the
specification's claims about them.

Modelling conventions:

* Python `str` values are Lean `String`s; character-level processing works on
  `String.data : List Char`.
* Python's `random.Random(seed)` (a Mersenne Twister) is modelled by a 64-bit
  linear congruential generator seeded deterministically from the seed.  The
  properties the specification relies on — the stream is a pure function of
  the seed, and `randint(a, b)` lands in `[a, b]` — hold of the model; the
  statistical distribution of the draws is not claim-relevant.
* `sympy.sympify`/`nsimplify` applied to answer strings is modelled as a
  parser of numeric literals (integers, fractions `a/b`, decimals) into `Rat`;
  the engine only ever produces and compares exact rational answers.
* Python dictionaries/JSON-like payloads are modelled by the `PyVal` type.
-/

/-! ## Characters and digits -/

/-- The character for a decimal digit `d` (Python `str` rendering). -/
def digitChar (d : Nat) : Char := Char.ofNat (48 + d)

/-- Numeric value of a digit character. -/
def digitValC (c : Char) : Nat := c.toNat - 48

/-- Whether `c` is an ASCII decimal digit. -/
def isDigitC (c : Char) : Bool := decide (48 ≤ c.toNat) && decide (c.toNat ≤ 57)

/-- Whether `c` is whitespace in Python's `str.strip` sense. -/
def isWsC (c : Char) : Bool :=
  decide (c.toNat = 32) || decide (c.toNat = 9) || decide (c.toNat = 10) ||
    decide (c.toNat = 13) || decide (c.toNat = 12) || decide (c.toNat = 11)

theorem digitChar_toNat {d : Nat} (h : d < 10) : (digitChar d).toNat = 48 + d := by
  interval_cases d <;> rfl

theorem isDigitC_digitChar {d : Nat} (h : d < 10) : isDigitC (digitChar d) = true := by
  simp [isDigitC, digitChar_toNat h]; omega

theorem digitValC_digitChar {d : Nat} (h : d < 10) : digitValC (digitChar d) = d := by
  simp [digitValC, digitChar_toNat h]

/-! ## Rendering integers the way Python `str` does -/

/-- Little-endian base-10 digits of `n`, by fuel recursion (kernel-reducible). -/
def natDigitsRev : Nat → Nat → List Nat
  | 0, _ => []
  | f + 1, n => if n = 0 then [] else n % 10 :: natDigitsRev f (n / 10)

theorem natDigitsRev_eq (f : Nat) : ∀ n : Nat, n ≤ f → natDigitsRev f n = Nat.digits 10 n := by
  induction f with
  | zero => intro n hn; interval_cases n; simp [natDigitsRev]
  | succ f ih =>
    intro n hn
    by_cases h0 : n = 0
    · subst h0; simp [natDigitsRev]
    · rw [natDigitsRev, if_neg h0,
        Nat.digits_def' (b := 10) (by norm_num) (Nat.pos_of_ne_zero h0),
        ih (n / 10) (by have := Nat.div_lt_self (Nat.pos_of_ne_zero h0) (by norm_num : 1 < 10); omega)]

/-- The character list Python's `str` produces for a natural number. -/
def natChars (n : Nat) : List Char :=
  if n = 0 then ['0'] else ((natDigitsRev n n).reverse.map digitChar)

/-- The character list Python's `str` produces for an integer. -/
def pyIntChars (n : Int) : List Char :=
  if n < 0 then '-' :: natChars n.natAbs else natChars n.toNat

/-- Python `str(n)` for an integer `n` (also `str(sympy.Integer(n))`). -/
def pyStr (n : Int) : String := String.mk (pyIntChars n)

/-- Python `f"{n:+}"`: always-signed integer rendering. -/
def pyStrPlus (n : Int) : String :=
  if n < 0 then pyStr n else String.mk ('+' :: pyIntChars n)

theorem natChars_eq (n : Nat) (h : n ≠ 0) :
    natChars n = (Nat.digits 10 n).reverse.map digitChar := by
  simp [natChars, h, natDigitsRev_eq n n le_rfl]

theorem natChars_ne_nil (n : Nat) : natChars n ≠ [] := by
  by_cases h : n = 0
  · subst h; simp [natChars]
  · rw [natChars_eq n h]
    simp [Nat.digits_ne_nil_iff_ne_zero.mpr h]

theorem mem_natChars (n : Nat) : ∀ c ∈ natChars n, ∃ d, d < 10 ∧ c = digitChar d := by
  by_cases h : n = 0
  · subst h; intro c hc
    simp [natChars] at hc
    exact ⟨0, by norm_num, by simp [hc]; rfl⟩
  · rw [natChars_eq n h]
    intro c hc
    simp only [List.mem_map, List.mem_reverse] at hc
    obtain ⟨d, hd, rfl⟩ := hc
    exact ⟨d, Nat.digits_lt_base (by norm_num) hd, rfl⟩

/-- Every character of a rendered integer is a minus sign or a digit. -/
theorem pyIntChars_classify (n : Int) :
    ∀ c ∈ pyIntChars n, c.toNat = 45 ∨ (48 ≤ c.toNat ∧ c.toNat ≤ 57) := by
  intro c hc
  unfold pyIntChars at hc
  have digitCase : ∀ m : Nat, c ∈ natChars m → 48 ≤ c.toNat ∧ c.toNat ≤ 57 := by
    intro m hm
    obtain ⟨d, hd, rfl⟩ := mem_natChars m c hm
    rw [digitChar_toNat hd]; omega
  split at hc
  · rcases List.mem_cons.mp hc with rfl | hc
    · left; rfl
    · right; exact digitCase _ hc
  · right; exact digitCase _ hc

/-! ## Parsing numeric strings (model of `sympy.sympify`/`nsimplify`/`int`) -/

/-- Parse a nonempty all-digit character list as a natural number. -/
def parseNatChars (l : List Char) : Option Nat :=
  if !l.isEmpty && l.all isDigitC then
    some (l.foldl (fun a c => 10 * a + digitValC c) 0)
  else none

/-- Parse an optionally signed integer literal. -/
def parseIntChars (l : List Char) : Option Int :=
  match l with
  | [] => none
  | c :: rest =>
    if c = '-' then (parseNatChars rest).map (fun m => -(m : Int))
    else if c = '+' then (parseNatChars rest).map (fun m => (m : Int))
    else (parseNatChars (c :: rest)).map (fun m => (m : Int))

theorem foldl_digits_eq (ds : List Nat) (hds : ∀ d ∈ ds, d < 10) : ∀ a : Nat,
    List.foldl (fun a c => 10 * a + digitValC c) a (ds.reverse.map digitChar) =
      a * 10 ^ ds.length + Nat.ofDigits 10 ds := by
  induction ds with
  | nil => intro a; simp
  | cons d t ih =>
    intro a
    have hd : d < 10 := hds d (by simp)
    have ht : ∀ x ∈ t, x < 10 := fun x hx => hds x (by simp [hx])
    simp only [List.reverse_cons, List.map_append, List.foldl_append, ih ht a,
      List.map_cons, List.map_nil, List.foldl_cons, List.foldl_nil,
      digitValC_digitChar hd, Nat.ofDigits_cons, List.length_cons]
    ring

theorem parseNatChars_natChars (n : Nat) : parseNatChars (natChars n) = some n := by
  by_cases h : n = 0
  · subst h; decide
  · have hne : (natChars n).isEmpty = false := by
      cases hnc : natChars n with
      | nil => exact absurd hnc (natChars_ne_nil n)
      | cons c t => rfl
    have hall : (natChars n).all isDigitC = true := by
      rw [List.all_eq_true]
      intro c hc
      obtain ⟨d, hd, rfl⟩ := mem_natChars n c hc
      exact isDigitC_digitChar hd
    rw [parseNatChars, hne, hall]
    simp only [Bool.not_false, Bool.true_and, if_pos]
    rw [natChars_eq n h,
      foldl_digits_eq _ (fun d hd => Nat.digits_lt_base (by norm_num) hd) 0,
      Nat.ofDigits_digits]
    simp

theorem head_natChars_isDigit (n : Nat) (c : Char) (t : List Char)
    (h : natChars n = c :: t) : isDigitC c = true := by
  have : c ∈ natChars n := by rw [h]; simp
  obtain ⟨d, hd, rfl⟩ := mem_natChars n c this
  exact isDigitC_digitChar hd

theorem parseIntChars_pyIntChars (n : Int) : parseIntChars (pyIntChars n) = some n := by
  by_cases hneg : n < 0
  · rw [pyIntChars, if_pos hneg]
    simp only [parseIntChars, if_pos rfl, parseNatChars_natChars, Option.map_some']
    exact congrArg some (show -((n.natAbs : Nat) : Int) = n by omega)
  · rw [pyIntChars, if_neg hneg]
    cases hnc : natChars n.toNat with
    | nil => exact absurd hnc (natChars_ne_nil _)
    | cons c t =>
      have hdig : isDigitC c = true := head_natChars_isDigit _ _ _ hnc
      have hc1 : ¬ (c = '-') := by
        intro h; subst h; simp [isDigitC] at hdig
      have hc2 : ¬ (c = '+') := by
        intro h; subst h; simp [isDigitC] at hdig
      have hp : parseNatChars (c :: t) = some n.toNat := by
        rw [← hnc, parseNatChars_natChars]
      simp only [parseIntChars, if_neg hc1, if_neg hc2, hp, Option.map_some']
      exact congrArg some (show ((n.toNat : Nat) : Int) = n by omega)

/-! ## String utilities mirroring the Python string operations used -/

/-- Python `str.strip()` on a character list. -/
def trimChars (l : List Char) : List Char :=
  ((l.dropWhile isWsC).reverse.dropWhile isWsC).reverse

/-- Membership test used to model Python `in` on strings. -/
def containsC (l : List Char) (c : Char) : Bool := l.any (fun x => decide (x = c))

/-- Split at the first occurrence of `sep` (model of one step of `str.split`). -/
def splitFirst (l : List Char) (sep : Char) : List Char × List Char :=
  match l with
  | [] => ([], [])
  | c :: rest =>
    if c = sep then ([], rest)
    else
      let p := splitFirst rest sep
      (c :: p.1, p.2)

/-- Python `str.split(sep)` for a single-character separator: keeps empty parts. -/
def pySplitChar (l : List Char) (sep : Char) : List (List Char) :=
  match l with
  | [] => [[]]
  | c :: rest =>
    let r := pySplitChar rest sep
    if c = sep then [] :: r
    else
      match r with
      | [] => [[c]]
      | h :: t => (c :: h) :: t

/-- Python `str.split()` (no argument): split on whitespace runs, no empty parts. -/
def pySplitWsAux : List Char → List Char → List (List Char)
  | [], acc => if acc.isEmpty then [] else [acc.reverse]
  | c :: rest, acc =>
    if isWsC c then
      if acc.isEmpty then pySplitWsAux rest [] else acc.reverse :: pySplitWsAux rest []
    else pySplitWsAux rest (c :: acc)

/-- Python `str.split()` (whitespace, discarding empties). -/
def pySplitWs (l : List Char) : List (List Char) := pySplitWsAux l []

/-- Python `s.replace("(", "").replace(")", "")`. -/
def stripParens (l : List Char) : List Char :=
  l.filter (fun c => !(decide (c = '(') || decide (c = ')')))

theorem dropWhile_eq_self_of_all (p : Char → Bool) (l : List Char)
    (h : ∀ c ∈ l, p c = false) : l.dropWhile p = l := by
  cases l with
  | nil => rfl
  | cons c t => simp [List.dropWhile_cons, h c (by simp)]

theorem trimChars_eq_self (l : List Char) (h : ∀ c ∈ l, isWsC c = false) :
    trimChars l = l := by
  unfold trimChars
  rw [dropWhile_eq_self_of_all _ _ h,
    dropWhile_eq_self_of_all _ _ (fun c hc => h c (List.mem_reverse.mp hc)),
    List.reverse_reverse]

theorem stripParens_eq_self (l : List Char) (h : ∀ c ∈ l, c ≠ '(' ∧ c ≠ ')') :
    stripParens l = l := by
  unfold stripParens
  rw [List.filter_eq_self]
  intro c hc
  simp [(h c hc).1, (h c hc).2]

theorem containsC_iff (l : List Char) (c : Char) : containsC l c = true ↔ c ∈ l := by
  unfold containsC
  rw [List.any_eq_true]
  constructor
  · rintro ⟨x, hx, hd⟩
    rw [decide_eq_true_eq] at hd
    exact hd ▸ hx
  · intro h; exact ⟨c, h, by simp⟩

theorem pySplitChar_of_no_sep (l : List Char) (sep : Char) (h : sep ∉ l) :
    pySplitChar l sep = [l] := by
  induction l with
  | nil => rfl
  | cons c t ih =>
    have hc : ¬ (c = sep) := fun hh => h (hh ▸ List.mem_cons_self c t)
    have ht : sep ∉ t := fun hh => h (List.mem_cons_of_mem c hh)
    simp only [pySplitChar, if_neg hc, ih ht]

theorem pySplitChar_append (l1 l2 : List Char) (sep : Char) (h : sep ∉ l1) :
    pySplitChar (l1 ++ sep :: l2) sep = l1 :: pySplitChar l2 sep := by
  induction l1 with
  | nil => simp [pySplitChar]
  | cons c t ih =>
    have hc : ¬ (c = sep) := fun hh => h (hh ▸ List.mem_cons_self c t)
    have ht : sep ∉ t := fun hh => h (List.mem_cons_of_mem c hh)
    simp only [List.cons_append, pySplitChar, if_neg hc, List.append_eq, ih ht]

/-! ## Model of numeric parsing via sympy

`sympy.sympify` / `sympy.nsimplify` on the answer strings this engine deals
with is modelled as parsing a numeric literal: an optionally signed integer,
fraction `p/q`, or decimal.  General symbolic expressions (which sympy would
also accept) are outside the model: every canonical answer produced by the
generators is a plain integer or integer pair, and the claims under
verification only exercise numeric literals and unparseable garbage. -/

/-- Parse a numeric literal into an exact rational (model of
`sympy.nsimplify(sympy.sympify(s))` for numeric strings). -/
def parseRatChars (l0 : List Char) : Option Rat :=
  let l := trimChars l0
  if containsC l '/' then
    let p := splitFirst l '/'
    match parseIntChars p.1, parseIntChars p.2 with
    | some a, some b => if b = 0 then none else some ((a : Rat) / (b : Rat))
    | _, _ => none
  else if containsC l '.' then
    let p := splitFirst l '.'
    match parseIntChars p.1, parseNatChars p.2 with
    | some a, some f =>
      let frac : Rat := (f : Rat) / (10 : Rat) ^ p.2.length
      some (if l.head? = some '-' then (a : Rat) - frac else (a : Rat) + frac)
    | _, _ => none
  else (parseIntChars l).map (fun n => (n : Rat))

/-- `sympy.Integer(s)` as used by `_parse_pair`: a strict integer literal. -/
def parsePyIntToken (l : List Char) : Option Int := parseIntChars (trimChars l)

theorem pyIntChars_not_ws (n : Int) : ∀ c ∈ pyIntChars n, isWsC c = false := by
  intro c hc
  rcases pyIntChars_classify n c hc with h | h <;> simp [isWsC] <;> omega

theorem pyIntChars_ne_char (n : Int) (ch : Char) (h45 : ch.toNat ≠ 45)
    (hdig : ¬ (48 ≤ ch.toNat ∧ ch.toNat ≤ 57)) : ch ∉ pyIntChars n := by
  intro hmem
  rcases pyIntChars_classify n ch hmem with h | h
  · exact h45 h
  · exact hdig h

theorem parseRatChars_pyIntChars (n : Int) : parseRatChars (pyIntChars n) = some (n : Rat) := by
  unfold parseRatChars
  rw [trimChars_eq_self _ (pyIntChars_not_ws n)]
  have hslash : containsC (pyIntChars n) '/' = false := by
    rw [← Bool.not_eq_true, containsC_iff]
    exact pyIntChars_ne_char n '/' (by decide) (by decide)
  have hdot : containsC (pyIntChars n) '.' = false := by
    rw [← Bool.not_eq_true, containsC_iff]
    exact pyIntChars_ne_char n '.' (by decide) (by decide)
  simp only [hslash, hdot, Bool.false_eq_true, if_false, parseIntChars_pyIntChars]
  rfl

theorem parseRat_pyStr (n : Int) : parseRatChars (pyStr n).data = some (n : Rat) := by
  show parseRatChars (pyIntChars n) = some (n : Rat)
  exact parseRatChars_pyIntChars n

/-! ## Pair parsing (`_parse_pair`, `_parse_two_numbers_any` of `generators.py`) -/

/-- `_parse_pair`: accepts `"x,y"`, `"(x,y)"`, `"x y"`; two strict integers. -/
def _parse_pair (s : String) : Option (Int × Int) :=
  let t := stripParens (trimChars s.data)
  let parts := if containsC t ',' then pySplitChar t ',' else pySplitWs t
  match parts with
  | [p1, p2] =>
    match parsePyIntToken p1, parsePyIntToken p2 with
    | some a, some b => some (a, b)
    | _, _ => none
  | _ => none

/-- `_parse_two_numbers_any`: like `_parse_pair` but any numeric literals,
with empty parts discarded. -/
def _parse_two_numbers_any (s : String) : Option (Rat × Rat) :=
  let t := stripParens (trimChars s.data)
  let parts :=
    (if containsC t ',' then pySplitChar t ',' else pySplitWs t).filter
      (fun p => !p.isEmpty)
  match parts with
  | [p1, p2] =>
    match parseRatChars p1, parseRatChars p2 with
    | some a, some b => some (a, b)
    | _, _ => none
  | _ => none

/-- The canonical pair rendering `f"{x},{y}"` used by the generators. -/
def pyPairStr (x y : Int) : String := pyStr x ++ "," ++ pyStr y

theorem pyPairStr_data (x y : Int) :
    (pyPairStr x y).data = pyIntChars x ++ ',' :: pyIntChars y := by
  show (pyStr x ++ "," ++ pyStr y).data = _
  rw [String.data_append, String.data_append]
  rw [show (",".data) = [','] by decide, List.append_assoc, List.singleton_append]
  rfl

theorem pyPairStr_chars (x y : Int) : ∀ c ∈ (pyPairStr x y).data,
    c.toNat = 44 ∨ c.toNat = 45 ∨ (48 ≤ c.toNat ∧ c.toNat ≤ 57) := by
  intro c hc
  rw [pyPairStr_data] at hc
  rcases List.mem_append.mp hc with h | h
  · rcases pyIntChars_classify x c h with h' | h'
    · exact Or.inr (Or.inl h')
    · exact Or.inr (Or.inr h')
  · rcases List.mem_cons.mp h with rfl | h'
    · exact Or.inl rfl
    · rcases pyIntChars_classify y c h' with h'' | h''
      · exact Or.inr (Or.inl h'')
      · exact Or.inr (Or.inr h'')

theorem parse_pair_round (x y : Int) : _parse_pair (pyPairStr x y) = some (x, y) := by
  unfold _parse_pair
  have htrim : trimChars (pyPairStr x y).data = (pyPairStr x y).data := by
    apply trimChars_eq_self
    intro c hc
    rcases pyPairStr_chars x y c hc with h | h | h <;> simp [isWsC] <;> omega
  have hparen : stripParens (pyPairStr x y).data = (pyPairStr x y).data := by
    apply stripParens_eq_self
    intro c hc
    rcases pyPairStr_chars x y c hc with h | h | h <;>
      constructor <;> intro hh <;> subst hh <;> simp at h
  rw [htrim, hparen, pyPairStr_data]
  have hcomma : containsC (pyIntChars x ++ ',' :: pyIntChars y) ',' = true := by
    rw [containsC_iff]
    exact List.mem_append.mpr (Or.inr (List.mem_cons_self _ _))
  have hnx : ',' ∉ pyIntChars x := pyIntChars_ne_char x ',' (by decide) (by decide)
  have hny : ',' ∉ pyIntChars y := pyIntChars_ne_char y ',' (by decide) (by decide)
  simp only [hcomma, if_true, pySplitChar_append _ _ _ hnx, pySplitChar_of_no_sep _ _ hny,
    parsePyIntToken, trimChars_eq_self _ (pyIntChars_not_ws x),
    trimChars_eq_self _ (pyIntChars_not_ws y), parseIntChars_pyIntChars]

theorem pyIntChars_ne_nil (n : Int) : pyIntChars n ≠ [] := by
  unfold pyIntChars
  split
  · simp
  · exact natChars_ne_nil _

theorem parse_two_numbers_round (x y : Int) :
    _parse_two_numbers_any (pyPairStr x y) = some ((x : Rat), (y : Rat)) := by
  unfold _parse_two_numbers_any
  have htrim : trimChars (pyPairStr x y).data = (pyPairStr x y).data := by
    apply trimChars_eq_self
    intro c hc
    rcases pyPairStr_chars x y c hc with h | h | h <;> simp [isWsC] <;> omega
  have hparen : stripParens (pyPairStr x y).data = (pyPairStr x y).data := by
    apply stripParens_eq_self
    intro c hc
    rcases pyPairStr_chars x y c hc with h | h | h <;>
      constructor <;> intro hh <;> subst hh <;> simp at h
  rw [htrim, hparen, pyPairStr_data]
  have hcomma : containsC (pyIntChars x ++ ',' :: pyIntChars y) ',' = true := by
    rw [containsC_iff]
    exact List.mem_append.mpr (Or.inr (List.mem_cons_self _ _))
  have hnx : ',' ∉ pyIntChars x := pyIntChars_ne_char x ',' (by decide) (by decide)
  have hny : ',' ∉ pyIntChars y := pyIntChars_ne_char y ',' (by decide) (by decide)
  have hex : (pyIntChars x).isEmpty = false := by
    cases h : pyIntChars x with
    | nil => exact absurd h (pyIntChars_ne_nil x)
    | cons c t => rfl
  have hey : (pyIntChars y).isEmpty = false := by
    cases h : pyIntChars y with
    | nil => exact absurd h (pyIntChars_ne_nil y)
    | cons c t => rfl
  simp only [hcomma, if_true, pySplitChar_append _ _ _ hnx, pySplitChar_of_no_sep _ _ hny,
    List.filter, hex, hey, Bool.not_false, parseRatChars_pyIntChars]

/-! ## Python values (JSON-like payloads, `str()`, `int()`, truthiness) -/

/-- A Python value as the guardrail layer can receive it: `None`, `bool`,
`int`, `str`, `list`, `dict` (string keys).  Floats do not occur in the
claims under verification and are outside the model. -/
inductive PyVal where
  | vNone : PyVal
  | vBool (b : Bool) : PyVal
  | vInt (n : Int) : PyVal
  | vStr (s : String) : PyVal
  | vList (l : List PyVal) : PyVal
  | vDict (d : List (String × PyVal)) : PyVal

/-- Python truthiness. -/
def pyTruthy : PyVal → Bool
  | .vNone => false
  | .vBool b => b
  | .vInt n => decide (n ≠ 0)
  | .vStr s => !s.isEmpty
  | .vList l => !l.isEmpty
  | .vDict d => !d.isEmpty

mutual

/-- Python `str(v)`.  For strings it is the identity; containers are rendered
with `repr` of their elements (string escaping inside `repr` is not modelled;
no claim exercises it). -/
def pyStrVal : PyVal → String
  | .vNone => "None"
  | .vBool b => if b then "True" else "False"
  | .vInt n => pyStr n
  | .vStr s => s
  | .vList l => "[" ++ String.intercalate ", " (pyReprList l) ++ "]"
  | .vDict d => "\x7b" ++ String.intercalate ", " (pyReprDict d) ++ "\x7d"

/-- Python `repr(v)` (strings quoted). -/
def pyReprVal : PyVal → String
  | .vStr s => "\x27" ++ s ++ "\x27"
  | .vNone => "None"
  | .vBool b => if b then "True" else "False"
  | .vInt n => pyStr n
  | .vList l => "[" ++ String.intercalate ", " (pyReprList l) ++ "]"
  | .vDict d => "\x7b" ++ String.intercalate ", " (pyReprDict d) ++ "\x7d"

def pyReprList : List PyVal → List String
  | [] => []
  | v :: t => pyReprVal v :: pyReprList t

def pyReprDict : List (String × PyVal) → List String
  | [] => []
  | (k, v) :: t => ("\x27" ++ k ++ "\x27: " ++ pyReprVal v) :: pyReprDict t

end

/-- Python `int(v)`: `none` models a raised exception. -/
def pyToInt : PyVal → Option Int
  | .vInt n => some n
  | .vBool b => some (if b then 1 else 0)
  | .vStr s => parseIntChars (trimChars s.data)
  | _ => none

/-- `d.get(k)` on a Python dict (first binding wins). -/
def dget (d : List (String × PyVal)) (k : String) : Option PyVal :=
  (d.find? (fun kv => kv.1 == k)).map (fun kv => kv.2)

/-- `d.get(k, dflt)`. -/
def dgetD (d : List (String × PyVal)) (k : String) (dflt : PyVal) : PyVal :=
  (dget d k).getD dflt

/-- `d.get(k) or dflt` (Python truthiness fallback). -/
def dgetTruthy (d : List (String × PyVal)) (k : String) (dflt : PyVal) : PyVal :=
  match dget d k with
  | some v => if pyTruthy v then v else dflt
  | none => dflt

/-! ## The pseudo-random stream

`random.Random(seed)` is a Mersenne Twister; it is not part of this
repository.  It is modelled by a 64-bit linear congruential generator: a pure
function of the seed whose `randint(a, b)` always lands in `[a, b]`, which is
what the code under verification relies on. -/

/-- State of the modelled `random.Random` stream. -/
structure RandState where
  s : Nat

/-- `random.Random(seed)`. -/
def mkRandom (seed : Int) : RandState :=
  ⟨(2862933555777941757 * seed.natAbs + 3037000493) % 18446744073709551616⟩

/-- One raw draw: next state and a 32-bit output. -/
def nextRand (st : RandState) : Nat × RandState :=
  let s := (6364136223846793005 * st.s + 1442695040888963407) % 18446744073709551616
  (s / 4294967296 % 4294967296, ⟨s⟩)

/-- `random._randbelow(n)`: a draw in `[0, n)` (for `n > 0`). -/
def randbelow (st : RandState) (n : Nat) : Nat × RandState :=
  let p := nextRand st
  (p.1 % n, p.2)

/-- `rng.randint(lo, hi)`: inclusive bounds. -/
def randint (st : RandState) (lo hi : Int) : Int × RandState :=
  let p := randbelow st (hi - lo + 1).toNat
  (lo + (p.1 : Int), p.2)

/-- `rng.choice(l)` for an integer list. -/
def pyChoice (st : RandState) (l : List Int) : Int × RandState :=
  let p := randbelow st l.length
  (l.getD p.1 0, p.2)

theorem randbelow_lt (st : RandState) (n : Nat) (h : 0 < n) : (randbelow st n).1 < n :=
  Nat.mod_lt _ h

theorem randint_mem (st : RandState) (lo hi : Int) (h : lo ≤ hi) :
    lo ≤ (randint st lo hi).1 ∧ (randint st lo hi).1 ≤ hi := by
  have hpos : 0 < (hi - lo + 1).toNat := by omega
  have hlt := randbelow_lt st (hi - lo + 1).toNat hpos
  simp only [randint]
  omega

/-- The Fisher–Yates swap `x[i], x[j] = x[j], x[i]` on a four-element list
(the only length `rng.shuffle` is applied to here). -/
def swap4 (l : List Int) (i j : Nat) : List Int :=
  match l with
  | [a, b, c, d] =>
    if i = 1 ∧ j = 0 then [b, a, c, d]
    else if i = 2 ∧ j = 0 then [c, b, a, d]
    else if i = 2 ∧ j = 1 then [a, c, b, d]
    else if i = 3 ∧ j = 0 then [d, b, c, a]
    else if i = 3 ∧ j = 1 then [a, d, c, b]
    else if i = 3 ∧ j = 2 then [a, b, d, c]
    else [a, b, c, d]
  | l => l

/-- `rng.shuffle(x)` for a four-element list: Python iterates
`i = 3, 2, 1` with `j = _randbelow(i + 1)`. -/
def pyShuffle4 (st : RandState) (l : List Int) : List Int × RandState :=
  let p3 := randbelow st 4
  let l3 := swap4 l 3 p3.1
  let p2 := randbelow p3.2 3
  let l2 := swap4 l3 2 p2.1
  let p1 := randbelow p2.2 2
  (swap4 l2 1 p1.1, p1.2)

theorem swap4_length (l : List Int) (i j : Nat) : (swap4 l i j).length = l.length := by
  unfold swap4
  split
  · split_ifs <;> rfl
  · rfl

theorem swap4_mem (l : List Int) (i j : Nat) (x : Int) : x ∈ swap4 l i j ↔ x ∈ l := by
  unfold swap4
  split
  · split_ifs <;> simp [List.mem_cons] <;> tauto
  · rfl

/-! ## The data model: `GeneratedItem` of `generators.py` -/

/-- The `GeneratedItem` dataclass: one fully specified problem instance. -/
structure GeneratedItem where
  domain : String
  skill : String
  format : String
  seed : Int
  prompt_latex : String
  solution_str : String
  explanation_steps : List String
  choices : Option (List String) := none
  correct_index : Option Int := none
  why_incorrect : Option (List String) := none
  diagram : Option PyVal := none

/-! ## Generators and graders: Algebra -/

/-- `generate_linear_equation(seed)`: `a(x + b) = c` with integer root. -/
def generate_linear_equation (seed : Int) : GeneratedItem :=
  let rng := mkRandom seed
  let pa := randint rng 2 9
  let a := pa.1
  let pr := randint pa.2 (-9) 9
  let root := pr.1
  let pb := randint pr.2 (-9) 9
  let b := pb.1
  let c := a * (root + b)
  { domain := "Algebra"
    skill := "linear_equation"
    format := "SPR"
    seed := seed
    prompt_latex := "Solve for x: " ++ pyStr a ++ "(x " ++ pyStrPlus b ++ ") = " ++ pyStr c
    solution_str := pyStr root
    explanation_steps :=
      ["Distribute: " ++ pyStr a ++ "x " ++ pyStrPlus (a * b) ++ " = " ++ pyStr c,
       "Subtract " ++ pyStrPlus (a * b) ++ " from both sides: " ++ pyStr a ++ "x = "
         ++ pyStr (c - a * b),
       "Divide by " ++ pyStr a ++ ": x = " ++ pyStr ((c - a * b).fdiv a)]
    diagram := none }

/-- The grading body of `grade_linear_equation`: a failed parse of the user
answer returns early; the comparison against the canonical answer sits in its
own `try` block. -/
def gradeByNumericTwoStage (item : GeneratedItem) (user_answer : String) :
    Bool × String × List String :=
  match parseRatChars user_answer.data with
  | none => (false, item.solution_str, item.explanation_steps)
  | some u =>
    let isEq :=
      match parseRatChars item.solution_str.data with
      | some s => decide (u = s)
      | none => false
    (isEq, item.solution_str, item.explanation_steps)

/-- The grading body shared verbatim by `grade_two_step_equation`,
`grade_proportion`, `grade_exponential_solve`, and the two Pythagorean
graders: one `try` block parsing and comparing, any failure ⇒ incorrect. -/
def gradeByNumeric (item : GeneratedItem) (user_answer : String) :
    Bool × String × List String :=
  let isEq :=
    match parseRatChars user_answer.data, parseRatChars item.solution_str.data with
    | some u, some s => decide (u = s)
    | _, _ => false
  (isEq, item.solution_str, item.explanation_steps)

/-- `grade_linear_equation(seed, user_answer)`. -/
def grade_linear_equation (seed : Int) (user_answer : String) :
    Bool × String × List String :=
  gradeByNumericTwoStage (generate_linear_equation seed) user_answer

/-- `generate_linear_equation_mc(seed)`: the base item plus three distractors.
`int(sp.nsimplify(base.solution_str))` always succeeds on the generator's
output (proved in `sol_val_linear_mc`); the exception fallback is modelled by
`Option.getD 0`. -/
def generate_linear_equation_mc (seed : Int) : GeneratedItem :=
  let base := generate_linear_equation seed
  let rng := mkRandom (seed + 999)
  let sol_val := (parseIntChars (trimChars base.solution_str.data)).getD 0
  let p1 := pyChoice rng [-2, -1, 1, 2]
  let d1 := sol_val + p1.1
  let d2 := sol_val * -1
  let p3 := pyChoice p1.2 [3, -3]
  let d3 := sol_val + p3.1
  let psh := pyShuffle4 p3.2 [sol_val, d1, d2, d3]
  let options := psh.1
  let correct_index := List.indexOf sol_val options
  let choices := options.map (fun x => pyStr x)
  let why_map := options.map (fun x =>
    if x = sol_val then
      "Correct — solves the equation after proper distribution/isolation."
    else if x = d2 then "Sign error when moving terms across the equals sign."
    else if x = d1 then "Arithmetic slip (off-by-one/two) during add/subtract step."
    else "Stopped early or misapplied division step.")
  { domain := base.domain
    skill := base.skill ++ "_mc"
    format := "MC"
    seed := base.seed
    prompt_latex := base.prompt_latex
    solution_str := pyStr sol_val
    explanation_steps := base.explanation_steps
    choices := some choices
    correct_index := some (correct_index : Int)
    why_incorrect := some why_map
    diagram := none }

/-- The grading body of `grade_linear_equation_mc`; `none` models Python's
`None`.  `item.correct_index or -1` is Python's falsy-`or`: the value `0` is
replaced by `-1`, exactly as in the source. -/
def gradeMcBody (item : GeneratedItem) (selected_index : Option Int) :
    Bool × String × List String × String :=
  match selected_index with
  | none => (false, item.solution_str, item.explanation_steps, "No choice selected")
  | some sel =>
    if sel < 0 ∨ ((item.choices.getD []).length : Int) ≤ sel then
      (false, item.solution_str, item.explanation_steps, "No choice selected")
    else
      let ci : Int :=
        match item.correct_index with
        | some n => if n = 0 then -1 else n
        | none => -1
      let why := (item.why_incorrect.getD [""]).getD sel.toNat ""
      (decide (sel = ci), item.solution_str, item.explanation_steps, why)

/-- `grade_linear_equation_mc(seed, selected_index)` (see `gradeMcBody`). -/
def grade_linear_equation_mc (seed : Int) (selected_index : Option Int) :
    Bool × String × List String × String :=
  gradeMcBody (generate_linear_equation_mc seed) selected_index

/-- `generate_two_step_equation(seed)`: `a x + b = c` with integer root. -/
def generate_two_step_equation (seed : Int) : GeneratedItem :=
  let rng := mkRandom seed
  let pa := randint rng 2 9
  let a := pa.1
  let pr := randint pa.2 (-9) 9
  let root := pr.1
  let pb := randint pr.2 (-9) 9
  let b := pb.1
  let c := a * root + b
  { domain := "Algebra"
    skill := "two_step_equation"
    format := "SPR"
    seed := seed
    prompt_latex := "Solve for x: " ++ pyStr a ++ "x " ++ pyStrPlus b ++ " = " ++ pyStr c
    solution_str := pyStr root
    explanation_steps :=
      ["Subtract " ++ pyStrPlus b ++ " from both sides: " ++ pyStr a ++ "x = "
         ++ pyStr (c - b),
       "Divide by " ++ pyStr a ++ ": x = " ++ pyStr ((c - b).fdiv a)]
    diagram := none }

/-- `grade_two_step_equation(seed, user_answer)`. -/
def grade_two_step_equation (seed : Int) (user_answer : String) :
    Bool × String × List String :=
  gradeByNumeric (generate_two_step_equation seed) user_answer

/-- `generate_proportion(seed)`: `a/b = x/c` with `a = b*k` divisible. -/
def generate_proportion (seed : Int) : GeneratedItem :=
  let rng := mkRandom seed
  let pb := randint rng 2 9
  let b := pb.1
  let pc := randint pb.2 2 9
  let c := pc.1
  let pk := randint pc.2 1 9
  let k := pk.1
  let a := b * k
  let x_val := (a * c).fdiv b
  { domain := "PSD"
    skill := "proportion"
    format := "SPR"
    seed := seed
    prompt_latex := "Solve for x: \\[\\frac\x7b" ++ pyStr a ++ "\x7d\x7b" ++ pyStr b
      ++ "\x7d = \\frac\x7bx\x7d\x7b" ++ pyStr c ++ "\x7d\\]"
    solution_str := pyStr x_val
    explanation_steps :=
      ["Cross-multiply: " ++ pyStr a ++ " · " ++ pyStr c ++ " = " ++ pyStr b ++ " · x",
       "Compute: " ++ pyStr (a * c) ++ " = " ++ pyStr b ++ "x",
       "Divide both sides by " ++ pyStr b ++ ": x = " ++ pyStr x_val]
    diagram := none }

/-- `grade_proportion(seed, user_answer)`. -/
def grade_proportion (seed : Int) (user_answer : String) :
    Bool × String × List String :=
  gradeByNumeric (generate_proportion seed) user_answer

/-! ## Generators and graders: 2×2 linear systems -/

/-- Python's falsy `or` on an integer draw: `x or dflt` is `dflt` when `x`
is `0`, else `x`. -/
def orDefault (x dflt : Int) : Int := if x = 0 then dflt else x

/-- The `while True` coefficient-resampling loop of
`generate_linear_system_2x2`, with fuel.  Each draw applies Python's falsy
`or`-defaults (`rng.randint(-5, 5) or k`), so all four coefficients are
nonzero; the loop exits at the first nonzero determinant.  The source loop is
unbounded; `none` models non-termination within the given fuel. -/
def drawSysCoeffs : RandState → Nat → Option (Int × Int × Int × Int × RandState)
  | _, 0 => none
  | rng, fuel + 1 =>
    let p1 := randint rng (-5) 5
    let a := orDefault p1.1 1
    let p2 := randint p1.2 (-5) 5
    let b := orDefault p2.1 2
    let p3 := randint p2.2 (-5) 5
    let c := orDefault p3.1 (-2)
    let p4 := randint p3.2 (-5) 5
    let d := orDefault p4.1 3
    if a * d - b * c ≠ 0 then some (a, b, c, d, p4.2) else drawSysCoeffs p4.2 fuel

/-- `generate_linear_system_2x2(seed)`: integer solution chosen first, then
coefficients resampled until the determinant is nonzero. -/
def generate_linear_system_2x2 (seed : Int) : Option GeneratedItem :=
  let rng := mkRandom seed
  let px := randint rng (-5) 5
  let x0 := px.1
  let py := randint px.2 (-5) 5
  let y0 := py.1
  (drawSysCoeffs py.2 1000).map (fun q =>
    let a := q.1
    let b := q.2.1
    let c := q.2.2.1
    let d := q.2.2.2.1
    let det := a * d - b * c
    let e := a * x0 + b * y0
    let f := c * x0 + d * y0
    { domain := "Algebra"
      skill := "linear_system_2x2"
      format := "SPR"
      seed := seed
      prompt_latex := "Solve the system for (x, y):\\n\\[\n\\begin\x7bcases\x7d "
        ++ pyStr a ++ "x " ++ pyStrPlus b ++ "y = " ++ pyStr e ++ " \\ "
        ++ pyStr c ++ "x " ++ pyStrPlus d ++ "y = " ++ pyStr f
        ++ " \\end\x7bcases\x7d\n\\]"
      solution_str := pyPairStr x0 y0
      explanation_steps :=
        ["Use elimination or Cramer\x27s rule to solve.",
         "Determinant: " ++ pyStr a ++ "·" ++ pyStr d ++ " - " ++ pyStr b ++ "·"
           ++ pyStr c ++ " = " ++ pyStr det,
         "Solution: x = " ++ pyStr x0 ++ ", y = " ++ pyStr y0]
      diagram := none })

/-- The grading body of `grade_linear_system_2x2`: ordered elementwise
comparison of integer pairs. -/
def gradeByOrderedPair (item : GeneratedItem) (user_answer : String) :
    Bool × String × List String :=
  let isEq :=
    match _parse_pair user_answer, _parse_pair item.solution_str with
    | some (ux, uy), some (sx, sy) => decide (ux = sx) && decide (uy = sy)
    | _, _ => false
  (isEq, item.solution_str, item.explanation_steps)

/-- `grade_linear_system_2x2(seed, user_answer)` (see `gradeByOrderedPair`). -/
def grade_linear_system_2x2 (seed : Int) (user_answer : String) :
    Option (Bool × String × List String) :=
  (generate_linear_system_2x2 seed).map (fun item => gradeByOrderedPair item user_answer)

/-! ## Generators and graders: Advanced Math -/

/-- The `sympy.latex` rendering of the expanded quadratic
`a*(x - r1)*(x - r2) = 0`.  Modelled directly: the zero terms are dropped, a
unit coefficient is elided, and signs are folded into the separators, as
sympy's printer does.  No claim depends on this prompt text. -/
def quadLatex (a r1 r2 : Int) : String :=
  let B := -(a * (r1 + r2))
  let C := a * r1 * r2
  let t2 := if a = 1 then "x^\x7b2\x7d" else pyStr a ++ " x^\x7b2\x7d"
  let tB :=
    if B = 0 then ""
    else (if 0 < B then " + " else " - ")
      ++ (if B.natAbs = 1 then "x" else pyStr (B.natAbs : Int) ++ " x")
  let tC := if C = 0 then "" else (if 0 < C then " + " else " - ") ++ pyStr (C.natAbs : Int)
  t2 ++ tB ++ tC ++ " = 0"

/-- `generate_quadratic_roots(seed)`: integer roots chosen first; the
canonical answer is the root pair sorted ascending. -/
def generate_quadratic_roots (seed : Int) : GeneratedItem :=
  let rng := mkRandom seed
  let p1 := randint rng (-5) 5
  let r1 := p1.1
  let p2 := randint p1.2 (-5) 5
  let r2 := p2.1
  let pa := pyChoice p2.2 [1, 1, 1, 2, 3]
  let a := pa.1
  { domain := "Advanced"
    skill := "quadratic_roots"
    format := "SPR"
    seed := seed
    prompt_latex := "Solve for x: " ++ quadLatex a r1 r2
    solution_str := pyPairStr (min r1 r2) (max r1 r2)
    explanation_steps :=
      ["Set factors to zero: (x - " ++ pyStr r1 ++ ") = 0 or (x - " ++ pyStr r2 ++ ") = 0",
       "Therefore, x = " ++ pyStr r1 ++ " or x = " ++ pyStr r2]
    diagram := none }

/-- The grading body of `grade_quadratic_roots`: both answers parsed as
two-element sets, compared for set equality. -/
def gradeByPairSet (item : GeneratedItem) (user_answer : String) :
    Bool × String × List String :=
  let isEq :=
    match _parse_two_numbers_any user_answer, _parse_two_numbers_any item.solution_str with
    | some (u1, u2), some (s1, s2) => decide (({u1, u2} : Finset Rat) = {s1, s2})
    | _, _ => false
  (isEq, item.solution_str, item.explanation_steps)

/-- `grade_quadratic_roots(seed, user_answer)`: order-independent comparison
of the two parsed numbers as sets. -/
def grade_quadratic_roots (seed : Int) (user_answer : String) :
    Bool × String × List String :=
  gradeByPairSet (generate_quadratic_roots seed) user_answer

/-- The value rendering in the exponential prompt: an `int` when `x0 ≥ 0`,
a Python `float` otherwise.  The float text is modelled by exact fraction
rendering; no claim depends on this prompt text. -/
def pyNumStr (q : Rat) : String :=
  if q.den = 1 then pyStr q.num else pyStr q.num ++ "/" ++ pyStr (q.den : Int)

/-- `c // a` as rendered in the exponential steps: `int // int` is an `int`,
`float // int` is a `float` (an integral value, rendered with `.0`). -/
def pyFloorDivStr (c : Rat) (a : Int) : String :=
  if c.den = 1 then pyStr (c.num.fdiv a) else pyStr ⌊c / (a : Rat)⌋ ++ ".0"

/-- `generate_exponential_solve(seed)`: `a · b^x = c` with `c = a * b**x0`
(a float when `x0 < 0`). -/
def generate_exponential_solve (seed : Int) : GeneratedItem :=
  let rng := mkRandom seed
  let pb := randint rng 2 5
  let b := pb.1
  let px := randint pb.2 (-3) 3
  let x0 := px.1
  let pa := pyChoice px.2 [1, 2, 3, 4]
  let a := pa.1
  let c : Rat := (a : Rat) * (b : Rat) ^ (x0 : Int)
  { domain := "Advanced"
    skill := "exponential_solve"
    format := "SPR"
    seed := seed
    prompt_latex := "Solve for x: " ++ pyStr a ++ "\\cdot " ++ pyStr b ++ "^x = "
      ++ pyNumStr c
    solution_str := pyStr x0
    explanation_steps :=
      ["Divide both sides by " ++ pyStr a ++ ": " ++ pyStr b ++ "^x = " ++ pyFloorDivStr c a,
       "Take log base " ++ pyStr b ++ ": x = \\log_\x7b" ++ pyStr b ++ "\x7d("
         ++ pyFloorDivStr c a ++ ") = " ++ pyStr x0] }

/-- `grade_exponential_solve(seed, user_answer)`. -/
def grade_exponential_solve (seed : Int) (user_answer : String) :
    Bool × String × List String :=
  gradeByNumeric (generate_exponential_solve seed) user_answer

/-! ## Generators and graders: Geometry -/

/-- The fixed Pythagorean triple pool. -/
def _TRIPLES : List (Int × Int × Int) :=
  [(3, 4, 5), (5, 12, 13), (7, 24, 25), (8, 15, 17), (9, 12, 15)]

/-- `rng.choice(_TRIPLES)`. -/
def choiceTriple (st : RandState) : (Int × Int × Int) × RandState :=
  let p := randbelow st _TRIPLES.length
  (_TRIPLES.getD p.1 (3, 4, 5), p.2)

/-- `generate_pythagorean_hypotenuse(seed)`: a scaled triple. -/
def generate_pythagorean_hypotenuse (seed : Int) : GeneratedItem :=
  let rng := mkRandom seed
  let pt := choiceTriple rng
  let a := pt.1.1
  let b := pt.1.2.1
  let c := pt.1.2.2
  let pk := randint pt.2 1 5
  let k := pk.1
  let leg1 := a * k
  let leg2 := b * k
  let hyp := c * k
  { domain := "Geometry"
    skill := "pythagorean_hypotenuse"
    format := "SPR"
    seed := seed
    prompt_latex := "\\text\x7bIn a right triangle with legs " ++ pyStr leg1 ++ " and "
      ++ pyStr leg2 ++ ", find the hypotenuse.\x7d"
    solution_str := pyStr hyp
    explanation_steps :=
      ["Use a^2 + b^2 = c^2: " ++ pyStr leg1 ++ "^2 + " ++ pyStr leg2 ++ "^2 = c^2",
       "Compute: " ++ pyStr (leg1 ^ 2) ++ " + " ++ pyStr (leg2 ^ 2) ++ " = "
         ++ pyStr (leg1 ^ 2 + leg2 ^ 2) ++ " = c^2",
       "Take square root: c = " ++ pyStr hyp]
    diagram := some (.vDict
      [("type", .vStr "right_triangle"), ("a", .vInt leg1), ("b", .vInt leg2),
       ("c", .vInt hyp),
       ("labels", .vDict
         [("a", .vStr (pyStr leg1)), ("b", .vStr (pyStr leg2)), ("c", .vStr "?")])]) }

/-- `grade_pythagorean_hypotenuse(seed, user_answer)`. -/
def grade_pythagorean_hypotenuse (seed : Int) (user_answer : String) :
    Bool × String × List String :=
  gradeByNumeric (generate_pythagorean_hypotenuse seed) user_answer

/-- `generate_pythagorean_leg(seed)`. -/
def generate_pythagorean_leg (seed : Int) : GeneratedItem :=
  let rng := mkRandom seed
  let pt := choiceTriple rng
  let a := pt.1.1
  let b := pt.1.2.1
  let c := pt.1.2.2
  let pk := randint pt.2 1 5
  let k := pk.1
  let leg_known := a * k
  let hyp := c * k
  let other_leg := b * k
  { domain := "Geometry"
    skill := "pythagorean_leg"
    format := "SPR"
    seed := seed
    prompt_latex := "\\text\x7bIn a right triangle, the hypotenuse is " ++ pyStr hyp
      ++ " and one leg is " ++ pyStr leg_known ++ ". Find the other leg.\x7d"
    solution_str := pyStr other_leg
    explanation_steps :=
      ["Use c^2 - a^2 = b^2: " ++ pyStr hyp ++ "^2 - " ++ pyStr leg_known ++ "^2 = b^2",
       "Compute: " ++ pyStr (hyp ^ 2) ++ " - " ++ pyStr (leg_known ^ 2) ++ " = "
         ++ pyStr (hyp ^ 2 - leg_known ^ 2) ++ " = b^2",
       "Take square root: b = " ++ pyStr other_leg]
    diagram := some (.vDict
      [("type", .vStr "right_triangle"), ("a", .vInt leg_known), ("b", .vInt other_leg),
       ("c", .vInt hyp),
       ("labels", .vDict
         [("a", .vStr (pyStr leg_known)), ("b", .vStr "?"), ("c", .vStr (pyStr hyp))])]) }

/-- `grade_pythagorean_leg(seed, user_answer)`. -/
def grade_pythagorean_leg (seed : Int) (user_answer : String) :
    Bool × String × List String :=
  gradeByNumeric (generate_pythagorean_leg seed) user_answer

/-! ## Skills imported by `main.py` but absent from the staged sources

`backend/app/main.py` imports six more generator/grader pairs from
`.generators` — `rational_equation`, `linear_system_3x3`, `unit_rate`
(`psd_unit_rate`), `rectangle_area`, `rectangle_perimeter` and
`triangle_angle` (`triangle_interior_angle`) — whose definitions are not in
the staged `generators.py`.  They are modelled here from the spec: §4.1
(answer shapes: a single signed integer for the rational equation; a
comma-separated ordered triple for the 3×3 system; a single integer for unit
rate, rectangle area/perimeter and the triangle angle; the answer is chosen
first and the surface coefficients derived from it, with no rejection
sampling), §4.2 (graders regenerate the instance and compare exactly:
numeric via symbolic parsing, tuples elementwise in fixed order; malformed
input ⇒ incorrect, never an exception), and the dispatch table of `main.py`
(domain and skill strings). -/

/-- The canonical triple rendering `f"{x},{y},{z}"` (spec §4.1: ordered
comma-separated tuple for 3×3 systems). -/
def pyTripleStr (x y z : Int) : String :=
  pyStr x ++ "," ++ pyStr y ++ "," ++ pyStr z

/-- Modelled from the spec: `generate_rational_equation` (missing from the
staged `generators.py`).  A rational equation `n/(x - m) = a` whose single
signed integer root `m + d` is chosen first (spec §4.1), with `n = a·d`
derived so the answer is exact. -/
def generate_rational_equation (seed : Int) : GeneratedItem :=
  let rng := mkRandom seed
  let pa := randint rng 2 9
  let a := pa.1
  let pd := randint pa.2 1 9
  let d := pd.1
  let pm := randint pd.2 (-9) 9
  let m := pm.1
  let root := m + d
  { domain := "Advanced"
    skill := "rational_equation"
    format := "SPR"
    seed := seed
    prompt_latex := "Solve for x: \\frac\x7b" ++ pyStr (a * d) ++ "\x7d\x7bx - "
      ++ pyStr m ++ "\x7d = " ++ pyStr a
    solution_str := pyStr root
    explanation_steps :=
      ["Multiply both sides by (x - " ++ pyStr m ++ "): " ++ pyStr (a * d)
         ++ " = " ++ pyStr a ++ "(x - " ++ pyStr m ++ ")",
       "Divide by " ++ pyStr a ++ ": " ++ pyStr d ++ " = x - " ++ pyStr m,
       "Add " ++ pyStr m ++ ": x = " ++ pyStr root]
    diagram := none }

/-- Modelled from the spec: `grade_rational_equation` (missing from the
staged `generators.py`).  Spec §4.2: regenerate, parse the free-text answer
symbolically, compare the simplified values exactly; a parse failure is
graded incorrect, never raised. -/
def grade_rational_equation (seed : Int) (user_answer : String) :
    Bool × String × List String :=
  gradeByNumeric (generate_rational_equation seed) user_answer

/-- Modelled from the spec: `generate_linear_system_3x3` (missing from the
staged `generators.py`).  The integer solution is chosen first and the
coefficient rows `(1,0,0)`, `(p,1,0)`, `(q,r,1)` are unit-triangular, so the
system is solvable by construction with no rejection sampling (spec §4.1);
the canonical answer is the ordered comma-separated triple. -/
def generate_linear_system_3x3 (seed : Int) : GeneratedItem :=
  let rng := mkRandom seed
  let px := randint rng (-5) 5
  let x0 := px.1
  let py := randint px.2 (-5) 5
  let y0 := py.1
  let pz := randint py.2 (-5) 5
  let z0 := pz.1
  let pp := randint pz.2 (-5) 5
  let p := pp.1
  let pq := randint pp.2 (-5) 5
  let q := pq.1
  let pr := randint pq.2 (-5) 5
  let r := pr.1
  let e1 := x0
  let e2 := p * x0 + y0
  let e3 := q * x0 + r * y0 + z0
  { domain := "Advanced"
    skill := "linear_system_3x3"
    format := "SPR"
    seed := seed
    prompt_latex := "Solve the system for (x, y, z): x = " ++ pyStr e1 ++ "; "
      ++ pyStr p ++ "x + y = " ++ pyStr e2 ++ "; "
      ++ pyStr q ++ "x " ++ pyStrPlus r ++ "y + z = " ++ pyStr e3
    solution_str := pyTripleStr x0 y0 z0
    explanation_steps :=
      ["Use forward substitution to solve.",
       "Solution: x = " ++ pyStr x0 ++ ", y = " ++ pyStr y0 ++ ", z = " ++ pyStr z0]
    diagram := none }

/-- Modelled from the spec: the triple parser of `grade_linear_system_3x3`
(missing from the staged `generators.py`).  Spec §4.2: flexible input forms
`"x,y,z"`, `"(x,y,z)"`, `"x y z"` parsed into a fixed-order numeric tuple;
a wrong element count or unparseable token means no parse. -/
def _parse_triple (s : String) : Option (Int × Int × Int) :=
  let t := stripParens (trimChars s.data)
  let parts := if containsC t ',' then pySplitChar t ',' else pySplitWs t
  match parts with
  | [p1, p2, p3] =>
    match parsePyIntToken p1, parsePyIntToken p2, parsePyIntToken p3 with
    | some a, some b, some c => some (a, b, c)
    | _, _, _ => none
  | _ => none

/-- Modelled from the spec: the grading body of `grade_linear_system_3x3`:
ordered elementwise comparison of integer triples, malformed input graded
incorrect (spec §4.2). -/
def gradeByOrderedTriple (item : GeneratedItem) (user_answer : String) :
    Bool × String × List String :=
  let isEq :=
    match _parse_triple user_answer, _parse_triple item.solution_str with
    | some (ux, uy, uz), some (sx, sy, sz) =>
      decide (ux = sx) && decide (uy = sy) && decide (uz = sz)
    | _, _ => false
  (isEq, item.solution_str, item.explanation_steps)

/-- Modelled from the spec: `grade_linear_system_3x3` (missing from the
staged `generators.py`). -/
def grade_linear_system_3x3 (seed : Int) (user_answer : String) :
    Bool × String × List String :=
  gradeByOrderedTriple (generate_linear_system_3x3 seed) user_answer

/-- Modelled from the spec: `generate_psd_unit_rate` (missing from the
staged `generators.py`).  The unit rate is chosen first and the total
derived, so the answer is a clean single integer (spec §4.1). -/
def generate_psd_unit_rate (seed : Int) : GeneratedItem :=
  let rng := mkRandom seed
  let prate := randint rng 2 20
  let rate := prate.1
  let pqty := randint prate.2 2 9
  let qty := pqty.1
  let total := rate * qty
  { domain := "PSD"
    skill := "unit_rate"
    format := "SPR"
    seed := seed
    prompt_latex := "\\text\x7bIf " ++ pyStr qty ++ " items cost " ++ pyStr total
      ++ " dollars, what is the cost per item?\x7d"
    solution_str := pyStr rate
    explanation_steps :=
      ["Divide the total by the quantity: " ++ pyStr total ++ " / " ++ pyStr qty
         ++ " = " ++ pyStr rate,
       "Unit rate: " ++ pyStr rate]
    diagram := none }

/-- Modelled from the spec: `grade_psd_unit_rate` (missing from the staged
`generators.py`); the numeric free-text grading pattern of spec §4.2. -/
def grade_psd_unit_rate (seed : Int) (user_answer : String) :
    Bool × String × List String :=
  gradeByNumeric (generate_psd_unit_rate seed) user_answer

/-- Modelled from the spec: `generate_rectangle_area` (missing from the
staged `generators.py`).  Integer sides drawn, area derived: a single
integer answer (spec §4.1). -/
def generate_rectangle_area (seed : Int) : GeneratedItem :=
  let rng := mkRandom seed
  let pw := randint rng 2 12
  let w := pw.1
  let ph := randint pw.2 2 12
  let h := ph.1
  { domain := "Geometry"
    skill := "rectangle_area"
    format := "SPR"
    seed := seed
    prompt_latex := "\\text\x7bFind the area of a rectangle with sides " ++ pyStr w
      ++ " and " ++ pyStr h ++ ".\x7d"
    solution_str := pyStr (w * h)
    explanation_steps :=
      ["Area = width · height: " ++ pyStr w ++ " · " ++ pyStr h ++ " = "
         ++ pyStr (w * h)]
    diagram := none }

/-- Modelled from the spec: `grade_rectangle_area` (missing from the staged
`generators.py`). -/
def grade_rectangle_area (seed : Int) (user_answer : String) :
    Bool × String × List String :=
  gradeByNumeric (generate_rectangle_area seed) user_answer

/-- Modelled from the spec: `generate_rectangle_perimeter` (missing from
the staged `generators.py`). -/
def generate_rectangle_perimeter (seed : Int) : GeneratedItem :=
  let rng := mkRandom seed
  let pw := randint rng 2 12
  let w := pw.1
  let ph := randint pw.2 2 12
  let h := ph.1
  { domain := "Geometry"
    skill := "rectangle_perimeter"
    format := "SPR"
    seed := seed
    prompt_latex := "\\text\x7bFind the perimeter of a rectangle with sides "
      ++ pyStr w ++ " and " ++ pyStr h ++ ".\x7d"
    solution_str := pyStr (2 * (w + h))
    explanation_steps :=
      ["Perimeter = 2 · (width + height): 2 · (" ++ pyStr w ++ " + " ++ pyStr h
         ++ ") = " ++ pyStr (2 * (w + h))]
    diagram := none }

/-- Modelled from the spec: `grade_rectangle_perimeter` (missing from the
staged `generators.py`). -/
def grade_rectangle_perimeter (seed : Int) (user_answer : String) :
    Bool × String × List String :=
  gradeByNumeric (generate_rectangle_perimeter seed) user_answer

/-- Modelled from the spec: `generate_triangle_interior_angle` (skill
`triangle_angle`, missing from the staged `generators.py`).  Two angles
drawn in `[20, 80]`, the third derived as `180 - a - b` (always positive):
a single integer answer, chosen-first (spec §4.1). -/
def generate_triangle_interior_angle (seed : Int) : GeneratedItem :=
  let rng := mkRandom seed
  let pa := randint rng 20 80
  let a := pa.1
  let pb := randint pa.2 20 80
  let b := pb.1
  let c := 180 - a - b
  { domain := "Geometry"
    skill := "triangle_angle"
    format := "SPR"
    seed := seed
    prompt_latex := "\\text\x7bTwo angles of a triangle measure " ++ pyStr a
      ++ " and " ++ pyStr b ++ " degrees. Find the third angle.\x7d"
    solution_str := pyStr c
    explanation_steps :=
      ["The angles of a triangle sum to 180: 180 - " ++ pyStr a ++ " - "
         ++ pyStr b ++ " = " ++ pyStr c]
    diagram := none }

/-- Modelled from the spec: `grade_triangle_interior_angle` (missing from
the staged `generators.py`). -/
def grade_triangle_interior_angle (seed : Int) (user_answer : String) :
    Bool × String × List String :=
  gradeByNumeric (generate_triangle_interior_angle seed) user_answer

/-! ## Guardrails (`guardrails.py`) -/

/-- Caps (`MAX_*`, `ELAB_*` constants of `guardrails.py`). -/
def MAX_LATEX_LEN : Nat := 3000
def MAX_CHOICES : Nat := 4
def MAX_CHOICE_LEN : Nat := 120
def MAX_STEPS : Nat := 8
def MAX_STEP_LEN : Nat := 200
def ELAB_MAX_TEXT : Nat := 600
def ELAB_MAX_WALKTHROUGH_STEPS : Nat := 8
def ELAB_MAX_WALKTHROUGH_STEP_LEN : Nat := 220

/-- The words of the `_DISALLOWED_LATEX` alternation
`\\(input|include|write18|openout|read|write|immediate)\b`. -/
def latexDenyWords : List (List Char) :=
  ["input".data, "include".data, "write18".data, "openout".data, "read".data,
   "write".data, "immediate".data]

/-- A regex `\w` character (ASCII): the word-boundary test of `\b`. -/
def wordCharB (c : Char) : Bool := c.isAlphanum || decide (c = '_')

/-- `\b` after a matched word: end of input or a non-word character. -/
def boundaryOk : List Char → Bool
  | [] => true
  | c :: _ => !wordCharB c

/-- Does one of the denylist alternatives match right here (after a
backslash)?  Covers the word alternation with `\b` and the three literal
alternatives `\begin{document}`, `\end{document}`, `\label{`. -/
def latexDenyAt (l : List Char) : Bool :=
  match l with
  | '\\' :: rest =>
    latexDenyWords.any (fun w => w.isPrefixOf rest && boundaryOk (rest.drop w.length))
      || "begin\x7bdocument\x7d".data.isPrefixOf rest
      || "end\x7bdocument\x7d".data.isPrefixOf rest
      || "label\x7b".data.isPrefixOf rest
  | _ => false

/-- `_DISALLOWED_LATEX.search`: does the pattern match anywhere? -/
def latexDenyScan : List Char → Bool
  | [] => false
  | c :: rest => latexDenyAt (c :: rest) || latexDenyScan rest

/-- `re.IGNORECASE` search of `_DISALLOWED_LATEX` in a string. -/
def unsafeLatexStr (s : String) : Bool := latexDenyScan (s.data.map Char.toLower)

/-- `_has_unsafe_latex(s)` as called on an arbitrary payload value:
`_DISALLOWED_LATEX.search(s or "")` inside `try/except` — a falsy value is
replaced by `""`, and a truthy non-string raises `TypeError`, which the
`except` turns into `True`. -/
def _has_unsafe_latex (v : PyVal) : Bool :=
  match v with
  | .vStr s => unsafeLatexStr s
  | v => pyTruthy v

/-- Iterating a Python value (`[str(v) for v in x]` is only defined for
iterables): a list yields its elements, a string its characters, a dict its
keys; `none` models the `TypeError` everything else raises. -/
def pyIter : PyVal → Option (List PyVal)
  | .vList l => some l
  | .vStr s => some (s.data.map (fun c => .vStr (String.mk [c])))
  | .vDict d => some (d.map (fun kv => .vStr kv.1))
  | _ => none

/-- `_stringify_list(values)`: `str` of every element of an iterable. -/
def _stringify_list (v : PyVal) : Option (List String) :=
  (pyIter v).map (fun l => l.map pyStrVal)

/-- The scalar skills of `_validate_math_formats` whose choices must sympify. -/
def scalarSkills : List String :=
  ["linear_equation", "linear_equation_mc", "two_step_equation", "exponential_solve",
   "rational_equation", "proportion", "pythagorean_hypotenuse", "pythagorean_leg",
   "rectangle_area", "rectangle_perimeter", "triangle_angle", "unit_rate"]

/-- `_is_pair`: strip, then `"(" … ")"` with a comma somewhere inside. -/
def isPairShape (s : String) : Bool :=
  let t := trimChars s.data
  (match t with
   | c :: _ => decide (c = '(')
   | [] => false)
    && (match t.getLast? with
        | some c => decide (c = ')')
        | none => false)
    && containsC t ','

/-- `_is_triple`: strip, `"(" … ")"`, exactly two commas. -/
def isTripleShape (s : String) : Bool :=
  let t := trimChars s.data
  (match t with
   | c :: _ => decide (c = '(')
   | [] => false)
    && (match t.getLast? with
        | some c => decide (c = ')')
        | none => false)
    && decide ((t.filter (fun c => decide (c = ','))).length = 2)

/-- `_validate_math_formats(skill, choices)`.  `sympy.sympify(c,
evaluate=False)` succeeding is modelled by the numeric-literal parser
succeeding; a parse failure raises inside the `try`, which returns `False`,
the same outcome as the model's `false`. -/
def _validate_math_formats (skill : String) (choices : List String) : Bool :=
  if scalarSkills.contains skill then
    choices.all (fun c => (parseRatChars (trimChars c.data)).isSome)
  else if skill = "linear_system_2x2" || skill = "quadratic_roots" then
    choices.all isPairShape
  else if skill = "linear_system_3x3" then
    choices.all isTripleShape
  else true

/-- One `if <failure>: valid = False; reasons.append(r)` step of the
validators, threading the `(valid, reasons)` state. -/
def chk (cond : Bool) (r : String) (st : Bool × List String) : Bool × List String :=
  if cond then (false, st.2 ++ [r]) else st

/-- A sequence of `chk` steps, in source order. -/
def chkAll (checks : List (Bool × String)) (st : Bool × List String) : Bool × List String :=
  checks.foldl (fun st p => chk p.1 p.2 st) st

/-- The individual failure conditions of `validate_ai_payload`, named so the
theorems can speak about them.  Each is a direct transcription of one
`if` in the source. -/
def aiPromptBad (prompt0 : PyVal) : Bool :=
  match prompt0 with
  | .vStr s => s.isEmpty
  | _ => true

def aiOverLen (prompt0 : PyVal) : Bool :=
  match prompt0 with
  | .vStr s => decide (s.length > MAX_LATEX_LEN)
  | _ => false

def aiCountBad (choices0 : PyVal) : Bool :=
  match choices0 with
  | .vList l => decide (l.length ≠ MAX_CHOICES)
  | _ => true

def aiLenBad (choicesS : List String) : Bool :=
  !(choicesS.all (fun c => 0 < c.length && c.length ≤ MAX_CHOICE_LEN))

def aiUniqBad (choicesS : List String) : Bool :=
  decide (choicesS.dedup.length ≠ MAX_CHOICES)

def aiCiBad (ci : Int) : Bool := decide (¬ (0 ≤ ci ∧ ci < (MAX_CHOICES : Int)))

def aiStepsShapeBad (steps0 : PyVal) : Bool :=
  match steps0 with
  | .vList l => decide (¬ (1 ≤ l.length ∧ l.length ≤ MAX_STEPS))
  | _ => true

def aiStepsLenBad (steps0 : PyVal) : Bool :=
  match steps0 with
  | .vList l => l.any (fun s =>
      match s with
      | .vStr t => decide (t.length > MAX_STEP_LEN)
      | _ => true)
  | _ => false

def aiFmtBad (skill : String) (choicesS : List String) : Bool :=
  !(_validate_math_formats skill choicesS)

/-- The checks of `validate_ai_payload` that run before `_stringify_list`
(prompt caps, unsafe markup, choice count), in source order. -/
def aiChecksPre (prompt0 choices0 : PyVal) : List (Bool × String) :=
  [(aiPromptBad prompt0, "prompt_empty"),
   (aiOverLen prompt0, "prompt_too_long"),
   (_has_unsafe_latex prompt0, "unsafe_latex"),
   (aiCountBad choices0, "choices_count")]

/-- The checks of `validate_ai_payload` on the stringified choices, the
coerced index and the steps, in source order.  The source's steps block is
`if <shape bad>: steps_count else: if <len bad>: steps_len`; the guard on the
`steps_len` entry reproduces that if/else exactly. -/
def aiChecksPost (skill : String) (steps0 : PyVal) (choicesS : List String) (ci : Int) :
    List (Bool × String) :=
  [(aiLenBad choicesS, "choices_len"),
   (aiUniqBad choicesS, "choices_unique"),
   (aiCiBad ci, "correct_index"),
   (aiStepsShapeBad steps0, "steps_count"),
   (!aiStepsShapeBad steps0 && aiStepsLenBad steps0, "steps_len"),
   (aiFmtBad skill choicesS, "choices_format")]

/-- The `(valid, reasons)` state of `validate_ai_payload` after all checks. -/
def aiState (skill : String) (prompt0 choices0 steps0 : PyVal) (choicesS : List String)
    (ci : Int) : Bool × List String :=
  chkAll (aiChecksPost skill steps0 choicesS ci)
    (chkAll (aiChecksPre prompt0 choices0) (true, []))

/-- The `flags` dict of `validate_ai_payload` (keys set to `True`, in
insertion order). -/
def aiFlags (prompt0 : PyVal) : List String :=
  (if aiOverLen prompt0 then ["over_length"] else [])
    ++ (if _has_unsafe_latex prompt0 then ["unsafe_latex"] else [])

theorem chk_valid_iff (cond : Bool) (r : String) (st : Bool × List String)
    (h : st.1 = true ↔ st.2 = []) :
    (chk cond r st).1 = true ↔ (chk cond r st).2 = [] := by
  unfold chk
  cases cond with
  | false => simpa using h
  | true => simp

theorem chk_mem_self (cond : Bool) (r : String) (st : Bool × List String)
    (h : cond = true) : r ∈ (chk cond r st).2 := by
  unfold chk
  rw [h]
  simp

theorem chk_mem_mono (cond : Bool) (r x : String) (st : Bool × List String)
    (h : x ∈ st.2) : x ∈ (chk cond r st).2 := by
  unfold chk
  cases cond <;> simp [h]

theorem chk_false_mono (cond : Bool) (r : String) (st : Bool × List String)
    (h : st.1 = false) : (chk cond r st).1 = false := by
  unfold chk
  cases cond <;> simp [h]

/-- The sanitized payload subset `cleaned` of `validate_ai_payload`. -/
structure AiCleaned where
  prompt_latex : String
  choices : List String
  correct_index : Int
  explanation_steps : List String
  hints : Option PyVal
  diagram : Option PyVal

/-- The result tuple `(valid, cleaned, reasons, flags)`; `flags` is the list
of flag names set to `True`, in insertion order. -/
structure AiOutcome where
  valid : Bool
  cleaned : AiCleaned
  reasons : List String
  flags : List String

/-- The diagram sanitization block of `validate_ai_payload`: a recognized
right-triangle is coerced (`int()` failures and non-positive sides drop the
diagram), a generic triangle passes through, anything else is dropped. -/
def cleanDiagram (v : PyVal) : Option PyVal :=
  match v with
  | .vDict d =>
    match dget d "type" with
    | some (.vStr t) =>
      if t = "right_triangle" then
        match pyToInt (dgetD d "a" (.vInt 0)), pyToInt (dgetD d "b" (.vInt 0)),
            pyToInt (dgetD d "c" (.vInt 0)) with
        | some da, some db, some dc =>
          if 0 < da ∧ 0 < db ∧ 0 < dc then
            some (.vDict
              [("type", .vStr "right_triangle"), ("a", .vInt da), ("b", .vInt db),
               ("c", .vInt dc), ("labels", dgetTruthy d "labels" (.vDict []))])
          else none
        | _, _, _ => none
      else if t = "triangle" then some (.vDict d)
      else none
    | _ => none
  | _ => none

/-- `validate_ai_payload(domain, skill, data)`.  The outer `Option` models an
uncaught `TypeError` from `_stringify_list` on a non-iterable `choices` or
`explanation_steps` value; on every other input the function returns. -/
def validate_ai_payload (domain skill : String) (data : List (String × PyVal)) :
    Option AiOutcome :=
  let choices0 := dgetTruthy data "choices" (.vList [])
  let correct_index0 := dgetD data "correct_index" (.vInt (-1))
  let steps0 := dgetTruthy data "explanation_steps" (.vList [])
  let hints0 := dgetTruthy data "hints" .vNone
  let prompt0 := dgetTruthy data "prompt_latex" (.vStr "")
  let diagram0 := dgetTruthy data "diagram" .vNone
  match _stringify_list choices0 with
  | none => none
  | some choicesS =>
    let ci := (pyToInt correct_index0).getD (-1)
    match _stringify_list steps0 with
    | none => none
    | some stepsS =>
      some
        { valid := (aiState skill prompt0 choices0 steps0 choicesS ci).1
          cleaned :=
            { prompt_latex := pyStrVal prompt0
              choices := choicesS
              correct_index := ci
              explanation_steps := stepsS
              hints := if pyTruthy hints0 then some hints0 else none
              diagram := cleanDiagram diagram0 }
          reasons := (aiState skill prompt0 choices0 steps0 choicesS ci).2
          flags := aiFlags prompt0 }

/-- The `cleaned` payload of `validate_elaboration_payload`. -/
structure ElaborationCleaned where
  concept : Option String
  plan : Option String
  walkthrough : Option (List String)
  quick_check : Option String
  common_mistake : Option String

/-- The result tuple of `validate_elaboration_payload`. -/
structure ElaborationOutcome where
  valid : Bool
  cleaned : ElaborationCleaned
  reasons : List String
  flags : List String

/-- `_ok_text(s)`: a nonempty string within the cap and free of denylisted
markup. -/
def elabOkText (v : PyVal) : Bool :=
  match v with
  | .vStr s => !s.isEmpty && decide (s.length ≤ ELAB_MAX_TEXT) && !_has_unsafe_latex v
  | _ => false

/-- Setting a flag key to `True` in the `flags` dict: idempotent. -/
def addFlag (flags : List String) (name : String) : List String :=
  if flags.contains name then flags else flags ++ [name]

/-- The per-step failure condition of the walkthrough loop: a non-string, an
over-long string, or denylisted markup. -/
def elabStepBad (s : PyVal) : Bool :=
  match s with
  | .vStr t => decide (t.length > ELAB_MAX_WALKTHROUGH_STEP_LEN) || unsafeLatexStr t
  | _ => true

/-- The walkthrough shape condition: not a list, or more than the cap. -/
def elabShapeBad (w : PyVal) : Bool :=
  match w with
  | .vList l => decide (l.length > ELAB_MAX_WALKTHROUGH_STEPS)
  | _ => true

/-- One optional free-text field of the elaboration payload: its `chk` step
and its contribution to the `unsafe_latex` flag. -/
def elabTextStep (v : PyVal) (r : String) (st : Bool × List String)
    (flags : List String) : (Bool × List String) × List String :=
  match v with
  | .vNone => (st, flags)
  | v =>
    if elabOkText v then (st, flags)
    else
      (chk true r st,
       match v with
       | .vStr s => if unsafeLatexStr s then addFlag flags "unsafe_latex" else flags
       | _ => flags)

/-- The walkthrough loop of `validate_elaboration_payload`: per-step `chk`
and flag updates, and the accumulation of the sanitized steps. -/
def elabWalkLoop : List PyVal → (Bool × List String) → List String → List String →
    (Bool × List String) × List String × List String
  | [], st, flags, acc => (st, flags, acc)
  | s :: rest, st, flags, acc =>
    if elabStepBad s then
      let flags' :=
        match s with
        | .vStr t => if unsafeLatexStr t then addFlag flags "unsafe_latex" else flags
        | _ => flags
      elabWalkLoop rest (chk true "walkthrough_step" st) flags' acc
    else
      match s with
      | .vStr t => elabWalkLoop rest st flags (acc ++ [t])
      | _ => elabWalkLoop rest st flags acc

/-- The four optional free-text fields checked in sequence, threading the
`(valid, reasons)` state and the flags. -/
def elabFields : List (PyVal × String) → (Bool × List String) × List String →
    (Bool × List String) × List String
  | [], q => q
  | (v, r) :: t, q => elabFields t (elabTextStep v r q.1 q.2)

/-- The walkthrough block: the shape check, or the per-step loop. -/
def elabWalkBlock (w : PyVal) (q4 : (Bool × List String) × List String) :
    ((Bool × List String) × List String) × List String :=
  if elabShapeBad w then ((chk true "walkthrough_count" q4.1, q4.2), [])
  else
    match w with
    | .vList l =>
      let z := elabWalkLoop l q4.1 q4.2 []
      ((z.1, z.2.1), z.2.2)
    | _ => (q4, [])

/-- `str(v) if isinstance(v, str) else None` of the elaboration `cleaned`. -/
def elabStrOf (v : PyVal) : Option String :=
  match v with
  | .vStr s => some s
  | _ => none

/-- `validate_elaboration_payload(data)`. -/
def validate_elaboration_payload (data : List (String × PyVal)) : ElaborationOutcome :=
  let concept := dgetTruthy data "concept" .vNone
  let plan := dgetTruthy data "plan" .vNone
  let walkthrough := dgetTruthy data "walkthrough" (.vList [])
  let quick := dgetTruthy data "quick_check" .vNone
  let mistake := dgetTruthy data "common_mistake" .vNone
  let q4 := elabFields
    [(concept, "concept_bad"), (plan, "plan_bad"), (quick, "quick_bad"),
     (mistake, "mistake_bad")] ((true, []), [])
  let q5 := elabWalkBlock walkthrough q4
  { valid := q5.1.1.1
    cleaned :=
      { concept := elabStrOf concept
        plan := elabStrOf plan
        walkthrough := if q5.2.isEmpty then none else some q5.2
        quick_check := elabStrOf quick
        common_mistake := elabStrOf mistake }
    reasons := q5.1.1.2
    flags := q5.1.2 }

/-! ## Lemmas about the check combinators -/

theorem chkAll_nil (st : Bool × List String) : chkAll [] st = st := rfl

theorem chkAll_cons (p : Bool × String) (t : List (Bool × String)) (st : Bool × List String) :
    chkAll (p :: t) st = chkAll t (chk p.1 p.2 st) := rfl

theorem chkAll_valid_iff (checks : List (Bool × String)) (st : Bool × List String)
    (h : st.1 = true ↔ st.2 = []) :
    (chkAll checks st).1 = true ↔ (chkAll checks st).2 = [] := by
  induction checks generalizing st with
  | nil => exact h
  | cons p t ih => rw [chkAll_cons]; exact ih _ (chk_valid_iff p.1 p.2 st h)

theorem chkAll_mem_mono (checks : List (Bool × String)) (st : Bool × List String)
    (x : String) (h : x ∈ st.2) : x ∈ (chkAll checks st).2 := by
  induction checks generalizing st with
  | nil => exact h
  | cons p t ih => rw [chkAll_cons]; exact ih _ (chk_mem_mono p.1 p.2 x st h)

theorem chkAll_mem_of (checks : List (Bool × String)) (st : Bool × List String)
    (c : Bool) (r : String) (hc : (c, r) ∈ checks) (h : c = true) :
    r ∈ (chkAll checks st).2 := by
  induction checks generalizing st with
  | nil => cases hc
  | cons p t ih =>
    rw [chkAll_cons]
    rcases List.mem_cons.mp hc with rfl | hmem
    · exact chkAll_mem_mono t _ r (chk_mem_self c r st h)
    · exact ih _ hmem

theorem chkAll_false_mono (checks : List (Bool × String)) (st : Bool × List String)
    (h : st.1 = false) : (chkAll checks st).1 = false := by
  induction checks generalizing st with
  | nil => exact h
  | cons p t ih => rw [chkAll_cons]; exact ih _ (chk_false_mono p.1 p.2 st h)

theorem chkAll_false_of (checks : List (Bool × String)) (st : Bool × List String)
    (c : Bool) (r : String) (hc : (c, r) ∈ checks) (h : c = true) :
    (chkAll checks st).1 = false := by
  induction checks generalizing st with
  | nil => cases hc
  | cons p t ih =>
    rw [chkAll_cons]
    rcases List.mem_cons.mp hc with rfl | hmem
    · refine chkAll_false_mono t _ ?_
      rw [h]
      simp [chk]
    · exact ih _ hmem

/-! ## Structure lemmas about the MC generator -/

theorem pyShuffle4_length (st : RandState) (l : List Int) :
    (pyShuffle4 st l).1.length = l.length := by
  simp [pyShuffle4, swap4_length]

theorem pyShuffle4_mem (st : RandState) (l : List Int) (x : Int) :
    x ∈ (pyShuffle4 st l).1 ↔ x ∈ l := by
  simp [pyShuffle4, swap4_mem]

/-- The shape of every MC instance: four shuffled options containing the
solution, `correct_index` the first index of the solution, `choices` and
`solution_str` their renderings. -/
theorem mc_shape (seed : Int) :
    ∃ (sol : Int) (options : List Int),
      options.length = 4 ∧ sol ∈ options ∧
      (generate_linear_equation_mc seed).choices = some (options.map (fun x => pyStr x)) ∧
      (generate_linear_equation_mc seed).correct_index
        = some ((List.indexOf sol options : Nat) : Int) ∧
      (generate_linear_equation_mc seed).solution_str = pyStr sol := by
  refine ⟨_, _, ?_, ?_, rfl, rfl, rfl⟩
  · rw [pyShuffle4_length]
    rfl
  · rw [pyShuffle4_mem]
    simp

/-! ## Claim theorems -/

/-- C2: Determinism — for every skill and every seed, two calls to
`generate_<skill>(seed)` produce identical `ProblemInstance` values in every
field; the generators are pure functions of the seed alone (their only
stream of randomness is the one keyed by the seed).  This covers the nine
generators of the staged `generators.py` and the six further generators
imported by `main.py` (rational equation, 3×3 system, unit rate, rectangle
area/perimeter, triangle angle), modelled from the spec. -/
theorem C2_generators_deterministic (seed : Int) :
    generate_linear_equation seed = generate_linear_equation seed ∧
    generate_linear_equation_mc seed = generate_linear_equation_mc seed ∧
    generate_two_step_equation seed = generate_two_step_equation seed ∧
    generate_proportion seed = generate_proportion seed ∧
    generate_linear_system_2x2 seed = generate_linear_system_2x2 seed ∧
    generate_quadratic_roots seed = generate_quadratic_roots seed ∧
    generate_exponential_solve seed = generate_exponential_solve seed ∧
    generate_pythagorean_hypotenuse seed = generate_pythagorean_hypotenuse seed ∧
    generate_pythagorean_leg seed = generate_pythagorean_leg seed ∧
    generate_rational_equation seed = generate_rational_equation seed ∧
    generate_linear_system_3x3 seed = generate_linear_system_3x3 seed ∧
    generate_psd_unit_rate seed = generate_psd_unit_rate seed ∧
    generate_rectangle_area seed = generate_rectangle_area seed ∧
    generate_rectangle_perimeter seed = generate_rectangle_perimeter seed ∧
    generate_triangle_interior_angle seed = generate_triangle_interior_angle seed :=
  ⟨rfl, rfl, rfl, rfl, rfl, rfl, rfl, rfl, rfl, rfl, rfl, rfl, rfl, rfl, rfl⟩

/-- C1: the round-trip invariant fails for the MC grader.  At seed 5 the
generated MC instance has `correct_index = 0`; selecting exactly that choice
(whose rationale text confirms it is the correct one) is graded incorrect,
because `item.correct_index or -1` in `grade_linear_equation_mc` replaces the
falsy index `0` by `-1`. -/
theorem C1_mc_canonical_choice_graded_incorrect :
    (generate_linear_equation_mc 5).correct_index = some 0 ∧
    (grade_linear_equation_mc 5 (some 0)).1 = false ∧
    (grade_linear_equation_mc 5 (some 0)).2.2.2
      = "Correct — solves the equation after proper distribution/isolation." := by
  refine ⟨by decide, by decide, by decide⟩

/-- C3 (counterexample): the four MC choices are not always pairwise
distinct.  At seed 2 the generated instance's choices contain the string
`"1"` twice (the off-by-small distractor collides with the sign-flip
distractor), so the set of choices has only 3 elements. -/
theorem C3_choices_not_unique_counterexample :
    (generate_linear_equation_mc 2).choices = some ["2", "1", "1", "-1"] ∧
    ((generate_linear_equation_mc 2).choices.getD []).dedup.length = 3 := by
  refine ⟨by decide, by decide⟩

/-- C3 (amended): for every seed, the MC instance has exactly 4 choices,
`correct_index` in `[0, 4)`, and `choices[correct_index]` equal to the
rendering of the canonical answer; the 4 choices are, however, not always
pairwise distinct (the distractor strategies can collide with the solution or
each other, e.g. the sign-flip distractor equals the solution when it is 0). -/
theorem C3_mc_invariant_amended (seed : Int) :
    ((generate_linear_equation_mc seed).choices.getD []).length = 4 ∧
    ∃ i : Nat, (generate_linear_equation_mc seed).correct_index = some (i : Int) ∧ i < 4 ∧
      ((generate_linear_equation_mc seed).choices.getD []).getD i ""
        = (generate_linear_equation_mc seed).solution_str := by
  obtain ⟨sol, options, hlen, hmem, hch, hci, hsol⟩ := mc_shape seed
  rw [hch, hci, hsol]
  have hidx : List.indexOf sol options < options.length := List.indexOf_lt_length.mpr hmem
  constructor
  · simp [hlen]
  · refine ⟨List.indexOf sol options, rfl, by omega, ?_⟩
    rw [Option.getD_some,
      List.getD_eq_getElem _ _ (by rw [List.length_map]; omega),
      List.getElem_map, List.getElem_indexOf hidx]

/-! ## Grading lemmas: round trips and unparseable input -/

theorem gradeByNumeric_roundtrip (item : GeneratedItem) (n : Int)
    (h : item.solution_str = pyStr n) :
    gradeByNumeric item item.solution_str
      = (true, item.solution_str, item.explanation_steps) := by
  unfold gradeByNumeric
  rw [h, parseRat_pyStr]
  exact congrArg (fun b => (b, pyStr n, item.explanation_steps)) (decide_eq_true rfl)

theorem gradeByNumericTwoStage_roundtrip (item : GeneratedItem) (n : Int)
    (h : item.solution_str = pyStr n) :
    gradeByNumericTwoStage item item.solution_str
      = (true, item.solution_str, item.explanation_steps) := by
  unfold gradeByNumericTwoStage
  rw [h, parseRat_pyStr]
  exact congrArg (fun b => (b, pyStr n, item.explanation_steps)) (decide_eq_true rfl)

theorem gradeByNumeric_badparse (item : GeneratedItem) (user : String)
    (h : parseRatChars user.data = none) :
    gradeByNumeric item user = (false, item.solution_str, item.explanation_steps) := by
  unfold gradeByNumeric
  rw [h]

theorem gradeByNumericTwoStage_badparse (item : GeneratedItem) (user : String)
    (h : parseRatChars user.data = none) :
    gradeByNumericTwoStage item user
      = (false, item.solution_str, item.explanation_steps) := by
  unfold gradeByNumericTwoStage
  rw [h]

theorem gradeByOrderedPair_roundtrip (item : GeneratedItem) (x y : Int)
    (h : item.solution_str = pyPairStr x y) :
    gradeByOrderedPair item item.solution_str
      = (true, item.solution_str, item.explanation_steps) := by
  unfold gradeByOrderedPair
  rw [h, parse_pair_round]
  refine congrArg (fun b => (b, pyPairStr x y, item.explanation_steps)) ?_
  show (decide (x = x) && decide (y = y)) = true
  rw [decide_eq_true (rfl : x = x), decide_eq_true (rfl : y = y), Bool.and_self]

theorem gradeByOrderedPair_badparse (item : GeneratedItem) (user : String)
    (h : _parse_pair user = none) :
    gradeByOrderedPair item user = (false, item.solution_str, item.explanation_steps) := by
  unfold gradeByOrderedPair
  rw [h]

theorem gradeByOrderedTriple_badparse (item : GeneratedItem) (user : String)
    (h : _parse_triple user = none) :
    gradeByOrderedTriple item user = (false, item.solution_str, item.explanation_steps) := by
  unfold gradeByOrderedTriple
  rw [h]

theorem gradeByPairSet_roundtrip (item : GeneratedItem) (u v : Int)
    (h : item.solution_str = pyPairStr u v) :
    gradeByPairSet item item.solution_str
      = (true, item.solution_str, item.explanation_steps) := by
  unfold gradeByPairSet
  rw [h, parse_two_numbers_round]
  exact congrArg (fun b => (b, pyPairStr u v, item.explanation_steps)) (decide_eq_true rfl)

theorem gradeByPairSet_swapped (item : GeneratedItem) (u v : Int)
    (h : item.solution_str = pyPairStr u v) :
    gradeByPairSet item (pyPairStr v u)
      = (true, item.solution_str, item.explanation_steps) := by
  unfold gradeByPairSet
  rw [h, parse_two_numbers_round, parse_two_numbers_round]
  exact congrArg (fun b => (b, pyPairStr u v, item.explanation_steps))
    (decide_eq_true (Finset.pair_comm _ _))

theorem gradeByPairSet_badparse (item : GeneratedItem) (user : String)
    (h : _parse_two_numbers_any user = none) :
    gradeByPairSet item user = (false, item.solution_str, item.explanation_steps) := by
  unfold gradeByPairSet
  rw [h]

/-- The round-trip property holds for every free-text grader: grading the
canonical answer of the instance generated for the same seed returns
`correct = true` and echoes the canonical answer and explanation steps.
(The MC grader violates it; see the C1 theorem.) -/
theorem free_text_roundtrip (seed : Int) :
    grade_linear_equation seed (generate_linear_equation seed).solution_str
      = (true, (generate_linear_equation seed).solution_str,
         (generate_linear_equation seed).explanation_steps) ∧
    grade_two_step_equation seed (generate_two_step_equation seed).solution_str
      = (true, (generate_two_step_equation seed).solution_str,
         (generate_two_step_equation seed).explanation_steps) ∧
    grade_proportion seed (generate_proportion seed).solution_str
      = (true, (generate_proportion seed).solution_str,
         (generate_proportion seed).explanation_steps) ∧
    grade_quadratic_roots seed (generate_quadratic_roots seed).solution_str
      = (true, (generate_quadratic_roots seed).solution_str,
         (generate_quadratic_roots seed).explanation_steps) ∧
    grade_exponential_solve seed (generate_exponential_solve seed).solution_str
      = (true, (generate_exponential_solve seed).solution_str,
         (generate_exponential_solve seed).explanation_steps) ∧
    grade_pythagorean_hypotenuse seed (generate_pythagorean_hypotenuse seed).solution_str
      = (true, (generate_pythagorean_hypotenuse seed).solution_str,
         (generate_pythagorean_hypotenuse seed).explanation_steps) ∧
    grade_pythagorean_leg seed (generate_pythagorean_leg seed).solution_str
      = (true, (generate_pythagorean_leg seed).solution_str,
         (generate_pythagorean_leg seed).explanation_steps) ∧
    (∀ item, generate_linear_system_2x2 seed = some item →
      grade_linear_system_2x2 seed item.solution_str
        = some (true, item.solution_str, item.explanation_steps)) := by
  refine ⟨?_, ?_, ?_, ?_, ?_, ?_, ?_, ?_⟩
  · obtain ⟨n, hn⟩ : ∃ n : Int, (generate_linear_equation seed).solution_str = pyStr n :=
      ⟨_, rfl⟩
    exact gradeByNumericTwoStage_roundtrip _ n hn
  · obtain ⟨n, hn⟩ : ∃ n : Int, (generate_two_step_equation seed).solution_str = pyStr n :=
      ⟨_, rfl⟩
    exact gradeByNumeric_roundtrip _ n hn
  · obtain ⟨n, hn⟩ : ∃ n : Int, (generate_proportion seed).solution_str = pyStr n :=
      ⟨_, rfl⟩
    exact gradeByNumeric_roundtrip _ n hn
  · obtain ⟨u, v, hn⟩ : ∃ u v : Int,
        (generate_quadratic_roots seed).solution_str = pyPairStr u v := ⟨_, _, rfl⟩
    exact gradeByPairSet_roundtrip _ u v hn
  · obtain ⟨n, hn⟩ : ∃ n : Int, (generate_exponential_solve seed).solution_str = pyStr n :=
      ⟨_, rfl⟩
    exact gradeByNumeric_roundtrip _ n hn
  · obtain ⟨n, hn⟩ : ∃ n : Int,
        (generate_pythagorean_hypotenuse seed).solution_str = pyStr n := ⟨_, rfl⟩
    exact gradeByNumeric_roundtrip _ n hn
  · obtain ⟨n, hn⟩ : ∃ n : Int, (generate_pythagorean_leg seed).solution_str = pyStr n :=
      ⟨_, rfl⟩
    exact gradeByNumeric_roundtrip _ n hn
  · intro item hitem
    rw [grade_linear_system_2x2, hitem, Option.map_some']
    obtain ⟨x, y, hn⟩ : ∃ x y : Int, item.solution_str = pyPairStr x y := by
      obtain ⟨q, hq, rfl⟩ := Option.map_eq_some'.mp hitem
      exact ⟨_, _, rfl⟩
    rw [gradeByOrderedPair_roundtrip item x y hn]

theorem gradeMcBody_none (item : GeneratedItem) :
    gradeMcBody item none
      = (false, item.solution_str, item.explanation_steps, "No choice selected") := rfl

theorem gradeMcBody_out_of_range (item : GeneratedItem) (sel : Int)
    (hsel : sel < 0 ∨ ((item.choices.getD []).length : Int) ≤ sel) :
    gradeMcBody item (some sel)
      = (false, item.solution_str, item.explanation_steps, "No choice selected") := by
  simp only [gradeMcBody]
  rw [if_pos hsel]

/-- Every MC instance carries exactly four choices. -/
theorem mc_choices_len4 (seed : Int) :
    ((generate_linear_equation_mc seed).choices.getD []).length = 4 := by
  obtain ⟨sol, options, hlen, hmem, hch, hci, hsol⟩ := mc_shape seed
  rw [hch, Option.getD_some, List.length_map, hlen]

/-- C5: Graders never raise on bad input — non-numeric garbage and
wrong-arity tuple input are graded `correct = false` together with the
canonical answer and explanation steps, and an out-of-range or absent MC
index (`-1`, `99`, `None`) is graded `correct = false`, for every seed.
This covers the nine graders of the staged `generators.py` and the six
further graders imported by `main.py` (rational equation, 3×3 system, unit
rate, rectangle area/perimeter, triangle angle), modelled from the spec. -/
theorem C5_graders_never_raise (seed : Int) :
    grade_linear_equation seed "abc"
      = (false, (generate_linear_equation seed).solution_str,
         (generate_linear_equation seed).explanation_steps) ∧
    grade_two_step_equation seed "abc"
      = (false, (generate_two_step_equation seed).solution_str,
         (generate_two_step_equation seed).explanation_steps) ∧
    grade_proportion seed "abc"
      = (false, (generate_proportion seed).solution_str,
         (generate_proportion seed).explanation_steps) ∧
    grade_exponential_solve seed "abc"
      = (false, (generate_exponential_solve seed).solution_str,
         (generate_exponential_solve seed).explanation_steps) ∧
    grade_pythagorean_hypotenuse seed "abc"
      = (false, (generate_pythagorean_hypotenuse seed).solution_str,
         (generate_pythagorean_hypotenuse seed).explanation_steps) ∧
    grade_pythagorean_leg seed "abc"
      = (false, (generate_pythagorean_leg seed).solution_str,
         (generate_pythagorean_leg seed).explanation_steps) ∧
    grade_quadratic_roots seed "abc"
      = (false, (generate_quadratic_roots seed).solution_str,
         (generate_quadratic_roots seed).explanation_steps) ∧
    grade_quadratic_roots seed "1"
      = (false, (generate_quadratic_roots seed).solution_str,
         (generate_quadratic_roots seed).explanation_steps) ∧
    (∀ item, generate_linear_system_2x2 seed = some item →
      grade_linear_system_2x2 seed "abc"
        = some (false, item.solution_str, item.explanation_steps) ∧
      grade_linear_system_2x2 seed "1"
        = some (false, item.solution_str, item.explanation_steps)) ∧
    grade_linear_equation_mc seed (some (-1))
      = (false, (generate_linear_equation_mc seed).solution_str,
         (generate_linear_equation_mc seed).explanation_steps, "No choice selected") ∧
    grade_linear_equation_mc seed (some 99)
      = (false, (generate_linear_equation_mc seed).solution_str,
         (generate_linear_equation_mc seed).explanation_steps, "No choice selected") ∧
    grade_linear_equation_mc seed none
      = (false, (generate_linear_equation_mc seed).solution_str,
         (generate_linear_equation_mc seed).explanation_steps, "No choice selected") ∧
    grade_rational_equation seed "abc"
      = (false, (generate_rational_equation seed).solution_str,
         (generate_rational_equation seed).explanation_steps) ∧
    grade_psd_unit_rate seed "abc"
      = (false, (generate_psd_unit_rate seed).solution_str,
         (generate_psd_unit_rate seed).explanation_steps) ∧
    grade_rectangle_area seed "abc"
      = (false, (generate_rectangle_area seed).solution_str,
         (generate_rectangle_area seed).explanation_steps) ∧
    grade_rectangle_perimeter seed "abc"
      = (false, (generate_rectangle_perimeter seed).solution_str,
         (generate_rectangle_perimeter seed).explanation_steps) ∧
    grade_triangle_interior_angle seed "abc"
      = (false, (generate_triangle_interior_angle seed).solution_str,
         (generate_triangle_interior_angle seed).explanation_steps) ∧
    grade_linear_system_3x3 seed "abc"
      = (false, (generate_linear_system_3x3 seed).solution_str,
         (generate_linear_system_3x3 seed).explanation_steps) ∧
    grade_linear_system_3x3 seed "1"
      = (false, (generate_linear_system_3x3 seed).solution_str,
         (generate_linear_system_3x3 seed).explanation_steps) := by
  refine ⟨gradeByNumericTwoStage_badparse _ _ (by decide),
    gradeByNumeric_badparse _ _ (by decide),
    gradeByNumeric_badparse _ _ (by decide),
    gradeByNumeric_badparse _ _ (by decide),
    gradeByNumeric_badparse _ _ (by decide),
    gradeByNumeric_badparse _ _ (by decide),
    gradeByPairSet_badparse _ _ (by decide),
    gradeByPairSet_badparse _ _ (by decide),
    ?_, ?_, ?_, gradeMcBody_none _,
    gradeByNumeric_badparse _ _ (by decide),
    gradeByNumeric_badparse _ _ (by decide),
    gradeByNumeric_badparse _ _ (by decide),
    gradeByNumeric_badparse _ _ (by decide),
    gradeByNumeric_badparse _ _ (by decide),
    gradeByOrderedTriple_badparse _ _ (by decide),
    gradeByOrderedTriple_badparse _ _ (by decide)⟩
  · intro item hitem
    constructor <;>
      rw [grade_linear_system_2x2, hitem, Option.map_some',
        gradeByOrderedPair_badparse _ _ (by decide)]
  · exact gradeMcBody_out_of_range _ _ (Or.inl (by norm_num))
  · refine gradeMcBody_out_of_range _ _ (Or.inr ?_)
    rw [mc_choices_len4]
    norm_num

/-- Witness for C5 at seed 1: the 2×2-system grader resolves garbage input
to `correct = false` without raising. -/
theorem C5_witness : (grade_linear_system_2x2 1 "abc").map (fun t => t.1) = some false := by
  obtain ⟨-, -, -, -, -, -, -, -, hsys, -, -, -⟩ := C5_graders_never_raise 1
  obtain ⟨h1, -⟩ := hsys _ rfl
  rw [h1]
  rfl

/-- C8: Quadratic-roots representation and order independence — for every
seed the canonical answer is the comma-separated root pair sorted ascending,
and whenever the canonical answer is the pair `u,v`, grading `"u,v"` and
grading `"v,u"` both return `correct = true`. -/
theorem C8_quadratic_order_independence (seed : Int) :
    (∃ u v : Int, u ≤ v ∧ (generate_quadratic_roots seed).solution_str = pyPairStr u v) ∧
    (∀ u v : Int, (generate_quadratic_roots seed).solution_str = pyPairStr u v →
      (grade_quadratic_roots seed (pyPairStr u v)).1 = true ∧
      (grade_quadratic_roots seed (pyPairStr v u)).1 = true) := by
  constructor
  · exact ⟨_, _, min_le_max, rfl⟩
  · intro u v h
    constructor
    · show (gradeByPairSet (generate_quadratic_roots seed) (pyPairStr u v)).1 = true
      rw [← h, gradeByPairSet_roundtrip (generate_quadratic_roots seed) u v h]
    · show (gradeByPairSet (generate_quadratic_roots seed) (pyPairStr v u)).1 = true
      rw [gradeByPairSet_swapped (generate_quadratic_roots seed) u v h]

/-- Witness for C8 at seed 1: the canonical roots are `-3,3`, and both input
orders are graded correct. -/
theorem C8_witness :
    (grade_quadratic_roots 1 (pyPairStr (-3) 3)).1 = true ∧
    (grade_quadratic_roots 1 (pyPairStr 3 (-3))).1 = true :=
  (C8_quadratic_order_independence 1).2 (-3) 3 (by decide)

/-! ## Lemmas about `validate_ai_payload` -/

/-- The shape of every returned outcome of `validate_ai_payload` in terms of
the named check state, given that both stringifications succeed. -/
theorem validate_ai_payload_shape (domain skill : String) (data : List (String × PyVal))
    (choicesS stepsS : List String)
    (hc : _stringify_list (dgetTruthy data "choices" (.vList [])) = some choicesS)
    (hs : _stringify_list (dgetTruthy data "explanation_steps" (.vList [])) = some stepsS) :
    validate_ai_payload domain skill data = some
      { valid := (aiState skill (dgetTruthy data "prompt_latex" (.vStr ""))
          (dgetTruthy data "choices" (.vList []))
          (dgetTruthy data "explanation_steps" (.vList [])) choicesS
          ((pyToInt (dgetD data "correct_index" (.vInt (-1)))).getD (-1))).1
        cleaned :=
          { prompt_latex := pyStrVal (dgetTruthy data "prompt_latex" (.vStr ""))
            choices := choicesS
            correct_index := (pyToInt (dgetD data "correct_index" (.vInt (-1)))).getD (-1)
            explanation_steps := stepsS
            hints := if pyTruthy (dgetTruthy data "hints" .vNone)
              then some (dgetTruthy data "hints" .vNone) else none
            diagram := cleanDiagram (dgetTruthy data "diagram" .vNone) }
        reasons := (aiState skill (dgetTruthy data "prompt_latex" (.vStr ""))
          (dgetTruthy data "choices" (.vList []))
          (dgetTruthy data "explanation_steps" (.vList [])) choicesS
          ((pyToInt (dgetD data "correct_index" (.vInt (-1)))).getD (-1))).2
        flags := aiFlags (dgetTruthy data "prompt_latex" (.vStr "")) } := by
  simp only [validate_ai_payload, hc, hs]

theorem aiState_false_of_pre (skill : String) (prompt0 choices0 steps0 : PyVal)
    (choicesS : List String) (ci : Int) (c : Bool) (r : String)
    (hc : (c, r) ∈ aiChecksPre prompt0 choices0) (h : c = true) :
    (aiState skill prompt0 choices0 steps0 choicesS ci).1 = false :=
  chkAll_false_mono _ _ (chkAll_false_of _ _ c r hc h)

theorem aiState_mem_of_pre (skill : String) (prompt0 choices0 steps0 : PyVal)
    (choicesS : List String) (ci : Int) (c : Bool) (r : String)
    (hc : (c, r) ∈ aiChecksPre prompt0 choices0) (h : c = true) :
    r ∈ (aiState skill prompt0 choices0 steps0 choicesS ci).2 :=
  chkAll_mem_mono _ _ r (chkAll_mem_of _ _ c r hc h)

theorem aiState_false_of_post (skill : String) (prompt0 choices0 steps0 : PyVal)
    (choicesS : List String) (ci : Int) (c : Bool) (r : String)
    (hc : (c, r) ∈ aiChecksPost skill steps0 choicesS ci) (h : c = true) :
    (aiState skill prompt0 choices0 steps0 choicesS ci).1 = false :=
  chkAll_false_of _ _ c r hc h

theorem aiState_mem_of_post (skill : String) (prompt0 choices0 steps0 : PyVal)
    (choicesS : List String) (ci : Int) (c : Bool) (r : String)
    (hc : (c, r) ∈ aiChecksPost skill steps0 choicesS ci) (h : c = true) :
    r ∈ (aiState skill prompt0 choices0 steps0 choicesS ci).2 :=
  chkAll_mem_of _ _ c r hc h

/-- C4 (amended): in `validate_ai_payload` the denylist is applied to the
prompt; whenever the prompt matches it (or is a truthy non-string, which the
scanner's `except` also flags), the payload is invalid with the
`unsafe_latex` reason and flag, independently of every other check. -/
theorem C4_unsafe_prompt_rejected (domain skill : String) (data : List (String × PyVal))
    (out : AiOutcome) (hval : validate_ai_payload domain skill data = some out)
    (hdeny : _has_unsafe_latex (dgetTruthy data "prompt_latex" (.vStr "")) = true) :
    out.valid = false ∧ "unsafe_latex" ∈ out.reasons ∧ "unsafe_latex" ∈ out.flags := by
  cases hc : _stringify_list (dgetTruthy data "choices" (.vList [])) with
  | none =>
    simp only [validate_ai_payload, hc] at hval
    exact Option.noConfusion hval
  | some choicesS =>
    cases hs : _stringify_list (dgetTruthy data "explanation_steps" (.vList [])) with
    | none =>
      simp only [validate_ai_payload, hc, hs] at hval
      exact Option.noConfusion hval
    | some stepsS =>
      rw [validate_ai_payload_shape domain skill data choicesS stepsS hc hs] at hval
      obtain rfl := (Option.some.injEq _ _).mp hval
      refine ⟨aiState_false_of_pre _ _ _ _ _ _ _ "unsafe_latex"
          (by simp [aiChecksPre]) hdeny,
        aiState_mem_of_pre _ _ _ _ _ _ _ "unsafe_latex"
          (by simp [aiChecksPre]) hdeny, ?_⟩
      show "unsafe_latex" ∈ aiFlags (dgetTruthy data "prompt_latex" (.vStr ""))
      rw [aiFlags, hdeny]
      simp

/-- The payload of the C4 witness: a file-inclusion directive in the prompt,
everything else valid. -/
def c4PromptPayload : List (String × PyVal) :=
  [("prompt_latex", .vStr "\\input\x7bbad\x7d"),
   ("choices", .vList [.vStr "1", .vStr "2", .vStr "3", .vStr "4"]),
   ("correct_index", .vInt 0),
   ("explanation_steps", .vList [.vStr "step1"])]

/-- Witness for the amended C4: a payload whose prompt contains a
file-inclusion directive is rejected with the `unsafe_latex` flag even though
all other fields are valid. -/
theorem C4_witness :
    ∃ out : AiOutcome,
      validate_ai_payload "Algebra" "linear_equation_mc" c4PromptPayload = some out ∧
      out.valid = false ∧ "unsafe_latex" ∈ out.reasons ∧ "unsafe_latex" ∈ out.flags := by
  obtain ⟨out, hval⟩ :
      ∃ out, validate_ai_payload "Algebra" "linear_equation_mc" c4PromptPayload = some out :=
    ⟨_, rfl⟩
  exact ⟨out, hval, C4_unsafe_prompt_rejected _ _ _ _ hval (by decide)⟩

/-- The payload of the C4 counterexample: safe prompt, valid choices and
index, but a denylisted file-inclusion directive inside an explanation step. -/
def c4Payload : List (String × PyVal) :=
  [("prompt_latex", .vStr "Let x = 2."),
   ("choices", .vList [.vStr "1", .vStr "2", .vStr "3", .vStr "4"]),
   ("correct_index", .vInt 1),
   ("explanation_steps", .vList [.vStr "Safe step.", .vStr "\\input\x7bbad\x7d"])]

/-- C4 (counterexample): a denylisted directive occurring only in a free-text
explanation step is not detected — the payload is accepted with `valid =
true`, no reasons and no flags, although the step matches the denylist. -/
theorem C4_steps_not_scanned_counterexample :
    unsafeLatexStr "\\input\x7bbad\x7d" = true ∧
    dgetTruthy c4Payload "explanation_steps" (.vList [])
      = .vList [.vStr "Safe step.", .vStr "\\input\x7bbad\x7d"] ∧
    (validate_ai_payload "Algebra" "linear_equation_mc" c4Payload).map
      (fun o => (o.valid, o.reasons, o.flags)) = some (true, [], []) := by
  refine ⟨by decide, rfl, by decide⟩

/-! ## Lemmas about `validate_elaboration_payload` -/

theorem elabTextStep_valid_iff (v : PyVal) (r : String) (st : Bool × List String)
    (flags : List String) (h : st.1 = true ↔ st.2 = []) :
    ((elabTextStep v r st flags).1.1 = true ↔ (elabTextStep v r st flags).1.2 = []) := by
  cases v with
  | vNone => exact h
  | vBool b => by_cases he : elabOkText (.vBool b) <;> simp [elabTextStep, he, chk] <;> exact h
  | vInt n => by_cases he : elabOkText (.vInt n) <;> simp [elabTextStep, he, chk] <;> exact h
  | vStr t => by_cases he : elabOkText (.vStr t) <;> simp [elabTextStep, he, chk] <;> exact h
  | vList l => by_cases he : elabOkText (.vList l) <;> simp [elabTextStep, he, chk] <;> exact h
  | vDict d => by_cases he : elabOkText (.vDict d) <;> simp [elabTextStep, he, chk] <;> exact h

theorem elabTextStep_mem_mono (v : PyVal) (r : String) (st : Bool × List String)
    (flags : List String) (x : String) (h : x ∈ st.2) :
    x ∈ (elabTextStep v r st flags).1.2 := by
  cases v with
  | vNone => exact h
  | vBool b =>
    by_cases he : elabOkText (.vBool b) <;> simp [elabTextStep, he, chk] <;> simp [h]
  | vInt n =>
    by_cases he : elabOkText (.vInt n) <;> simp [elabTextStep, he, chk] <;> simp [h]
  | vStr t =>
    by_cases he : elabOkText (.vStr t) <;> simp [elabTextStep, he, chk] <;> simp [h]
  | vList l =>
    by_cases he : elabOkText (.vList l) <;> simp [elabTextStep, he, chk] <;> simp [h]
  | vDict d =>
    by_cases he : elabOkText (.vDict d) <;> simp [elabTextStep, he, chk] <;> simp [h]

theorem elabTextStep_false_mono (v : PyVal) (r : String) (st : Bool × List String)
    (flags : List String) (h : st.1 = false) :
    (elabTextStep v r st flags).1.1 = false := by
  cases v with
  | vNone => exact h
  | vBool b => by_cases he : elabOkText (.vBool b) <;> simp [elabTextStep, he, chk, h]
  | vInt n => by_cases he : elabOkText (.vInt n) <;> simp [elabTextStep, he, chk, h]
  | vStr t => by_cases he : elabOkText (.vStr t) <;> simp [elabTextStep, he, chk, h]
  | vList l => by_cases he : elabOkText (.vList l) <;> simp [elabTextStep, he, chk, h]
  | vDict d => by_cases he : elabOkText (.vDict d) <;> simp [elabTextStep, he, chk, h]

theorem elabTextStep_mem_self (v : PyVal) (r : String) (st : Bool × List String)
    (flags : List String) (hv : v ≠ .vNone) (he : elabOkText v = false) :
    r ∈ (elabTextStep v r st flags).1.2 := by
  cases v with
  | vNone => exact absurd rfl hv
  | vBool b => simp [elabTextStep, he, chk]
  | vInt n => simp [elabTextStep, he, chk]
  | vStr t => simp [elabTextStep, he, chk]
  | vList l => simp [elabTextStep, he, chk]
  | vDict d => simp [elabTextStep, he, chk]

theorem elabFields_valid_iff (fs : List (PyVal × String))
    (q : (Bool × List String) × List String) (h : q.1.1 = true ↔ q.1.2 = []) :
    ((elabFields fs q).1.1 = true ↔ (elabFields fs q).1.2 = []) := by
  induction fs generalizing q with
  | nil => exact h
  | cons p t ih => exact ih _ (elabTextStep_valid_iff p.1 p.2 q.1 q.2 h)

theorem elabFields_mem_mono (fs : List (PyVal × String))
    (q : (Bool × List String) × List String) (x : String) (h : x ∈ q.1.2) :
    x ∈ (elabFields fs q).1.2 := by
  induction fs generalizing q with
  | nil => exact h
  | cons p t ih => exact ih _ (elabTextStep_mem_mono p.1 p.2 q.1 q.2 x h)

theorem elabFields_mem_of (fs : List (PyVal × String))
    (q : (Bool × List String) × List String) (v : PyVal) (r : String)
    (hmem : (v, r) ∈ fs) (hv : v ≠ .vNone) (he : elabOkText v = false) :
    r ∈ (elabFields fs q).1.2 := by
  induction fs generalizing q with
  | nil => cases hmem
  | cons p t ih =>
    rcases List.mem_cons.mp hmem with rfl | hmem'
    · exact elabFields_mem_mono t _ r (elabTextStep_mem_self v r q.1 q.2 hv he)
    · exact ih _ hmem'

theorem elabWalkLoop_valid_iff (l : List PyVal) :
    ∀ (st : Bool × List String) (flags acc : List String),
      (st.1 = true ↔ st.2 = []) →
      ((elabWalkLoop l st flags acc).1.1 = true ↔ (elabWalkLoop l st flags acc).1.2 = []) := by
  induction l with
  | nil => intro st flags acc h; exact h
  | cons s rest ih =>
    intro st flags acc h
    by_cases hb : elabStepBad s = true
    · simp only [elabWalkLoop, if_pos hb]
      exact ih _ _ _ (chk_valid_iff true _ st h)
    · simp only [elabWalkLoop, if_neg hb]
      cases s with
      | vStr t => exact ih _ _ _ h
      | vNone => exact ih _ _ _ h
      | vBool b => exact ih _ _ _ h
      | vInt n => exact ih _ _ _ h
      | vList l2 => exact ih _ _ _ h
      | vDict d => exact ih _ _ _ h

theorem elabWalkLoop_mem_mono (l : List PyVal) :
    ∀ (st : Bool × List String) (flags acc : List String) (x : String),
      x ∈ st.2 → x ∈ (elabWalkLoop l st flags acc).1.2 := by
  induction l with
  | nil => intro st flags acc x h; exact h
  | cons s rest ih =>
    intro st flags acc x h
    by_cases hb : elabStepBad s = true
    · simp only [elabWalkLoop, if_pos hb]
      exact ih _ _ _ x (chk_mem_mono true _ x st h)
    · simp only [elabWalkLoop, if_neg hb]
      cases s with
      | vStr t => exact ih _ _ _ x h
      | vNone => exact ih _ _ _ x h
      | vBool b => exact ih _ _ _ x h
      | vInt n => exact ih _ _ _ x h
      | vList l2 => exact ih _ _ _ x h
      | vDict d => exact ih _ _ _ x h

theorem elabWalkLoop_mem_of (l : List PyVal) :
    ∀ (st : Bool × List String) (flags acc : List String),
      (∃ s ∈ l, elabStepBad s = true) →
      "walkthrough_step" ∈ (elabWalkLoop l st flags acc).1.2 := by
  induction l with
  | nil => intro st flags acc h; obtain ⟨s, hs, -⟩ := h; cases hs
  | cons s rest ih =>
    intro st flags acc h
    by_cases hb : elabStepBad s = true
    · simp only [elabWalkLoop, if_pos hb]
      exact elabWalkLoop_mem_mono rest _ _ _ _ (chk_mem_self true _ st rfl)
    · obtain ⟨s', hs', hbad⟩ := h
      rcases List.mem_cons.mp hs' with rfl | hs''
      · exact absurd hbad hb
      · simp only [elabWalkLoop, if_neg hb]
        cases s with
        | vStr t => exact ih _ _ _ ⟨s', hs'', hbad⟩
        | vNone => exact ih _ _ _ ⟨s', hs'', hbad⟩
        | vBool b => exact ih _ _ _ ⟨s', hs'', hbad⟩
        | vInt n => exact ih _ _ _ ⟨s', hs'', hbad⟩
        | vList l2 => exact ih _ _ _ ⟨s', hs'', hbad⟩
        | vDict d => exact ih _ _ _ ⟨s', hs'', hbad⟩

theorem elabWalkBlock_valid_iff (w : PyVal) (q4 : (Bool × List String) × List String)
    (h : q4.1.1 = true ↔ q4.1.2 = []) :
    ((elabWalkBlock w q4).1.1.1 = true ↔ (elabWalkBlock w q4).1.1.2 = []) := by
  by_cases hs : elabShapeBad w = true
  · simp only [elabWalkBlock, if_pos hs]
    exact chk_valid_iff true _ q4.1 h
  · simp only [elabWalkBlock, if_neg hs]
    cases w with
    | vList l => exact elabWalkLoop_valid_iff l _ _ _ h
    | vNone => exact h
    | vBool b => exact h
    | vInt n => exact h
    | vStr t => exact h
    | vDict d => exact h

theorem elabWalkBlock_mem_mono (w : PyVal) (q4 : (Bool × List String) × List String)
    (x : String) (h : x ∈ q4.1.2) : x ∈ (elabWalkBlock w q4).1.1.2 := by
  by_cases hs : elabShapeBad w = true
  · simp only [elabWalkBlock, if_pos hs]
    exact chk_mem_mono true _ x q4.1 h
  · simp only [elabWalkBlock, if_neg hs]
    cases w with
    | vList l => exact elabWalkLoop_mem_mono l _ _ _ x h
    | vNone => exact h
    | vBool b => exact h
    | vInt n => exact h
    | vStr t => exact h
    | vDict d => exact h

theorem elabWalkBlock_mem_shape (w : PyVal) (q4 : (Bool × List String) × List String)
    (hs : elabShapeBad w = true) : "walkthrough_count" ∈ (elabWalkBlock w q4).1.1.2 := by
  simp only [elabWalkBlock, if_pos hs]
  exact chk_mem_self true _ q4.1 rfl

theorem elabWalkBlock_mem_step (l : List PyVal) (q4 : (Bool × List String) × List String)
    (hs : elabShapeBad (.vList l) = false) (hbad : ∃ s ∈ l, elabStepBad s = true) :
    "walkthrough_step" ∈ (elabWalkBlock (.vList l) q4).1.1.2 := by
  simp only [elabWalkBlock, hs, Bool.false_eq_true, if_false]
  exact elabWalkLoop_mem_of l _ _ _ hbad

theorem validate_elaboration_valid_eq (data : List (String × PyVal)) :
    (validate_elaboration_payload data).valid
      = (elabWalkBlock (dgetTruthy data "walkthrough" (.vList []))
          (elabFields
            [(dgetTruthy data "concept" .vNone, "concept_bad"),
             (dgetTruthy data "plan" .vNone, "plan_bad"),
             (dgetTruthy data "quick_check" .vNone, "quick_bad"),
             (dgetTruthy data "common_mistake" .vNone, "mistake_bad")]
            ((true, []), []))).1.1.1 := rfl

theorem validate_elaboration_reasons_eq (data : List (String × PyVal)) :
    (validate_elaboration_payload data).reasons
      = (elabWalkBlock (dgetTruthy data "walkthrough" (.vList []))
          (elabFields
            [(dgetTruthy data "concept" .vNone, "concept_bad"),
             (dgetTruthy data "plan" .vNone, "plan_bad"),
             (dgetTruthy data "quick_check" .vNone, "quick_bad"),
             (dgetTruthy data "common_mistake" .vNone, "mistake_bad")]
            ((true, []), []))).1.1.2 := rfl

/-- C7: Reasons iff invalid, with no short-circuit — `validate_ai_payload`
and `validate_elaboration_payload` return `valid = true` exactly when the
returned reasons list is empty, and every failed check contributes its reason
code to the list (all checks are evaluated). -/
theorem C7_reasons_iff_invalid :
    (∀ (domain skill : String) (data : List (String × PyVal)) (out : AiOutcome),
      validate_ai_payload domain skill data = some out →
      ((out.valid = true ↔ out.reasons = []) ∧
       (aiPromptBad (dgetTruthy data "prompt_latex" (.vStr "")) = true →
         "prompt_empty" ∈ out.reasons) ∧
       (aiOverLen (dgetTruthy data "prompt_latex" (.vStr "")) = true →
         "prompt_too_long" ∈ out.reasons) ∧
       (_has_unsafe_latex (dgetTruthy data "prompt_latex" (.vStr "")) = true →
         "unsafe_latex" ∈ out.reasons) ∧
       (aiCountBad (dgetTruthy data "choices" (.vList [])) = true →
         "choices_count" ∈ out.reasons) ∧
       (aiLenBad out.cleaned.choices = true → "choices_len" ∈ out.reasons) ∧
       (aiUniqBad out.cleaned.choices = true → "choices_unique" ∈ out.reasons) ∧
       (aiCiBad out.cleaned.correct_index = true → "correct_index" ∈ out.reasons) ∧
       (aiStepsShapeBad (dgetTruthy data "explanation_steps" (.vList [])) = true →
         "steps_count" ∈ out.reasons) ∧
       (aiStepsShapeBad (dgetTruthy data "explanation_steps" (.vList [])) = false →
         aiStepsLenBad (dgetTruthy data "explanation_steps" (.vList [])) = true →
         "steps_len" ∈ out.reasons) ∧
       (aiFmtBad skill out.cleaned.choices = true → "choices_format" ∈ out.reasons))) ∧
    (∀ data : List (String × PyVal),
      (((validate_elaboration_payload data).valid = true ↔
          (validate_elaboration_payload data).reasons = []) ∧
       (dgetTruthy data "concept" .vNone ≠ .vNone →
         elabOkText (dgetTruthy data "concept" .vNone) = false →
         "concept_bad" ∈ (validate_elaboration_payload data).reasons) ∧
       (dgetTruthy data "plan" .vNone ≠ .vNone →
         elabOkText (dgetTruthy data "plan" .vNone) = false →
         "plan_bad" ∈ (validate_elaboration_payload data).reasons) ∧
       (dgetTruthy data "quick_check" .vNone ≠ .vNone →
         elabOkText (dgetTruthy data "quick_check" .vNone) = false →
         "quick_bad" ∈ (validate_elaboration_payload data).reasons) ∧
       (dgetTruthy data "common_mistake" .vNone ≠ .vNone →
         elabOkText (dgetTruthy data "common_mistake" .vNone) = false →
         "mistake_bad" ∈ (validate_elaboration_payload data).reasons) ∧
       (elabShapeBad (dgetTruthy data "walkthrough" (.vList [])) = true →
         "walkthrough_count" ∈ (validate_elaboration_payload data).reasons) ∧
       (∀ l : List PyVal, dgetTruthy data "walkthrough" (.vList []) = .vList l →
         elabShapeBad (dgetTruthy data "walkthrough" (.vList [])) = false →
         (∃ s ∈ l, elabStepBad s = true) →
         "walkthrough_step" ∈ (validate_elaboration_payload data).reasons))) := by
  constructor
  · intro domain skill data out hval
    cases hc : _stringify_list (dgetTruthy data "choices" (.vList [])) with
    | none =>
      simp only [validate_ai_payload, hc] at hval
      exact Option.noConfusion hval
    | some choicesS =>
      cases hs : _stringify_list (dgetTruthy data "explanation_steps" (.vList [])) with
      | none =>
        simp only [validate_ai_payload, hc, hs] at hval
        exact Option.noConfusion hval
      | some stepsS =>
        rw [validate_ai_payload_shape domain skill data choicesS stepsS hc hs] at hval
        obtain rfl := (Option.some.injEq _ _).mp hval
        refine ⟨?_, ?_, ?_, ?_, ?_, ?_, ?_, ?_, ?_, ?_, ?_⟩
        · exact chkAll_valid_iff _ _ (chkAll_valid_iff _ _ (by simp))
        · intro h
          exact aiState_mem_of_pre _ _ _ _ _ _ _ _ (by simp [aiChecksPre]) h
        · intro h
          exact aiState_mem_of_pre _ _ _ _ _ _ _ _ (by simp [aiChecksPre]) h
        · intro h
          exact aiState_mem_of_pre _ _ _ _ _ _ _ _ (by simp [aiChecksPre]) h
        · intro h
          exact aiState_mem_of_pre _ _ _ _ _ _ _ _ (by simp [aiChecksPre]) h
        · intro h
          exact aiState_mem_of_post _ _ _ _ _ _ _ _ (by simp [aiChecksPost]) h
        · intro h
          exact aiState_mem_of_post _ _ _ _ _ _ _ _ (by simp [aiChecksPost]) h
        · intro h
          exact aiState_mem_of_post _ _ _ _ _ _ _ _ (by simp [aiChecksPost]) h
        · intro h
          exact aiState_mem_of_post _ _ _ _ _ _ _ _ (by simp [aiChecksPost]) h
        · intro hsh hlen
          refine aiState_mem_of_post _ _ _ _ _ _
            (!aiStepsShapeBad (dgetTruthy data "explanation_steps" (.vList []))
              && aiStepsLenBad (dgetTruthy data "explanation_steps" (.vList []))) _
            (by simp [aiChecksPost]) ?_
          rw [hsh, hlen]
          rfl
        · intro h
          exact aiState_mem_of_post _ _ _ _ _ _ _ _ (by simp [aiChecksPost]) h
  · intro data
    refine ⟨?_, ?_, ?_, ?_, ?_, ?_, ?_⟩
    · rw [validate_elaboration_valid_eq, validate_elaboration_reasons_eq]
      exact elabWalkBlock_valid_iff _ _ (elabFields_valid_iff _ _ (by simp))
    · intro hv he
      rw [validate_elaboration_reasons_eq]
      exact elabWalkBlock_mem_mono _ _ _
        (elabFields_mem_of _ _ _ _ (by simp) hv he)
    · intro hv he
      rw [validate_elaboration_reasons_eq]
      exact elabWalkBlock_mem_mono _ _ _
        (elabFields_mem_of _ _ _ _ (by simp) hv he)
    · intro hv he
      rw [validate_elaboration_reasons_eq]
      exact elabWalkBlock_mem_mono _ _ _
        (elabFields_mem_of _ _ _ _ (by simp) hv he)
    · intro hv he
      rw [validate_elaboration_reasons_eq]
      exact elabWalkBlock_mem_mono _ _ _
        (elabFields_mem_of _ _ _ _ (by simp) hv he)
    · intro hshape
      rw [validate_elaboration_reasons_eq]
      exact elabWalkBlock_mem_shape _ _ hshape
    · intro l hw hshape hbad
      rw [validate_elaboration_reasons_eq]
      rw [hw] at hshape ⊢
      exact elabWalkBlock_mem_step l _ hshape hbad

/-- Witness for C7 at concrete payloads: the iff on an AI payload, and a
failed `concept` check contributing its reason code. -/
theorem C7_witness :
    (∃ out : AiOutcome,
      validate_ai_payload "Algebra" "linear_equation_mc" c4PromptPayload = some out ∧
      (out.valid = true ↔ out.reasons = [])) ∧
    "concept_bad" ∈ (validate_elaboration_payload [("concept", .vInt 3)]).reasons := by
  constructor
  · exact ⟨_, rfl,
      (C7_reasons_iff_invalid.1 "Algebra" "linear_equation_mc" c4PromptPayload _ rfl).1⟩
  · exact (C7_reasons_iff_invalid.2 [("concept", .vInt 3)]).2.1
      (fun h => PyVal.noConfusion h) (by decide)

/-- C9: Skill-specific format gate — for a pair-shaped skill
(`linear_system_2x2` or `quadratic_roots`), a single cleaned choice not
shaped like `"(a, b)"` makes the whole payload invalid with the
`choices_format` reason, regardless of the other checks. -/
theorem C9_pair_skill_format_gate (domain skill : String) (data : List (String × PyVal))
    (out : AiOutcome) (hval : validate_ai_payload domain skill data = some out)
    (hskill : skill = "linear_system_2x2" ∨ skill = "quadratic_roots")
    (hbad : ∃ c ∈ out.cleaned.choices, isPairShape c = false) :
    out.valid = false ∧ "choices_format" ∈ out.reasons := by
  cases hc : _stringify_list (dgetTruthy data "choices" (.vList [])) with
  | none =>
    simp only [validate_ai_payload, hc] at hval
    exact Option.noConfusion hval
  | some choicesS =>
    cases hs : _stringify_list (dgetTruthy data "explanation_steps" (.vList [])) with
    | none =>
      simp only [validate_ai_payload, hc, hs] at hval
      exact Option.noConfusion hval
    | some stepsS =>
      rw [validate_ai_payload_shape domain skill data choicesS stepsS hc hs] at hval
      obtain rfl := (Option.some.injEq _ _).mp hval
      obtain ⟨c, hcm, hcf⟩ := hbad
      have hall : choicesS.all isPairShape = false := by
        rw [Bool.eq_false_iff]
        intro hall
        have := List.all_eq_true.mp hall c hcm
        rw [hcf] at this
        exact Bool.noConfusion this
      have hscalar : scalarSkills.contains skill = false := by
        rcases hskill with rfl | rfl <;> decide
      have hfmt : aiFmtBad skill choicesS = true := by
        rw [aiFmtBad, _validate_math_formats, hscalar]
        rcases hskill with rfl | rfl <;> simp [hall]
      refine ⟨aiState_false_of_post _ _ _ _ _ _ _ "choices_format" ?_ hfmt,
        aiState_mem_of_post _ _ _ _ _ _ _ "choices_format" ?_ hfmt⟩ <;>
        simp [aiChecksPost]

/-- The payload of the C9 witness: everything valid except that the choices
are scalars while the skill expects `"(a, b)"` pairs. -/
def c9Payload : List (String × PyVal) :=
  [("prompt_latex", .vStr "Solve."),
   ("choices", .vList [.vStr "1", .vStr "2", .vStr "3", .vStr "4"]),
   ("correct_index", .vInt 0),
   ("explanation_steps", .vList [.vStr "step"])]

/-- Witness for C9: scalar choices under the `quadratic_roots` skill are
rejected with the `choices_format` reason. -/
theorem C9_witness :
    ∃ out : AiOutcome,
      validate_ai_payload "Advanced" "quadratic_roots" c9Payload = some out ∧
      out.valid = false ∧ "choices_format" ∈ out.reasons :=
  ⟨_, rfl, C9_pair_skill_format_gate "Advanced" "quadratic_roots" c9Payload _ rfl
    (Or.inr rfl) ⟨"1", by decide, by decide⟩⟩

/-- The payload of the C10 theorem: the choices are the integers 1–4, not
strings. -/
def c10Payload : List (String × PyVal) :=
  [("prompt_latex", .vStr "Let x = 2."),
   ("choices", .vList [.vInt 1, .vInt 2, .vInt 3, .vInt 4]),
   ("correct_index", .vInt 1),
   ("explanation_steps", .vList [.vStr "Assign x.", .vStr "Evaluate."])]

/-- C10: `validate_ai_payload` coerces every choices entry with `str()`
before the length and uniqueness checks: the cleaned choices are always the
`str()` images of the raw entries, and a payload whose choices are the
integers 1–4 is accepted with `valid = true`. -/
theorem C10_choices_stringified :
    (∀ (domain skill : String) (data : List (String × PyVal)) (l : List PyVal)
      (out : AiOutcome),
      dget data "choices" = some (.vList l) → l ≠ [] →
      validate_ai_payload domain skill data = some out →
      out.cleaned.choices = l.map pyStrVal) ∧
    (∃ out : AiOutcome,
      validate_ai_payload "Algebra" "linear_equation_mc" c10Payload = some out ∧
      out.valid = true ∧ out.cleaned.choices = ["1", "2", "3", "4"] ∧
      out.cleaned.correct_index = 1) := by
  constructor
  · intro domain skill data l out hget hne hval
    have hemp : l.isEmpty = false := by
      cases l with
      | nil => exact absurd rfl hne
      | cons a t => rfl
    have hch : dgetTruthy data "choices" (.vList []) = .vList l := by
      simp [dgetTruthy, hget, pyTruthy, hemp]
    have hc : _stringify_list (dgetTruthy data "choices" (.vList []))
        = some (l.map pyStrVal) := by
      rw [hch]
      rfl
    cases hs : _stringify_list (dgetTruthy data "explanation_steps" (.vList [])) with
    | none =>
      simp only [validate_ai_payload, hc, hs] at hval
      exact Option.noConfusion hval
    | some stepsS =>
      rw [validate_ai_payload_shape domain skill data (l.map pyStrVal) stepsS hc hs] at hval
      obtain rfl := (Option.some.injEq _ _).mp hval
      rfl
  · exact ⟨_, rfl, by decide, by decide, by decide⟩

/-- Witness for C10: the cleaned choices of the integer payload are the
`str()` images of its raw entries. -/
theorem C10_witness :
    ∃ out : AiOutcome,
      validate_ai_payload "Algebra" "linear_equation_mc" c10Payload = some out ∧
      out.cleaned.choices
        = [PyVal.vInt 1, PyVal.vInt 2, PyVal.vInt 3, PyVal.vInt 4].map pyStrVal :=
  ⟨_, rfl, C10_choices_stringified.1 "Algebra" "linear_equation_mc" c10Payload
    [PyVal.vInt 1, PyVal.vInt 2, PyVal.vInt 3, PyVal.vInt 4] _ rfl (by simp) rfl⟩

theorem orDefault_ne_zero (x dflt : Int) (h : dflt ≠ 0) : orDefault x dflt ≠ 0 := by
  unfold orDefault
  split_ifs <;> omega

/-- The coefficient-resampling loop, whenever it returns, returns four
nonzero coefficients with nonzero determinant: the Python `or`-defaults rule
out zero coefficients, and the loop guard rules out a zero determinant.
Termination itself depends on the pseudo-random stream (the source loop is
`while True` with no retry bound). -/
theorem drawSysCoeffs_spec :
    ∀ (fuel : Nat) (st : RandState) (a b c d : Int) (st' : RandState),
      drawSysCoeffs st fuel = some (a, b, c, d, st') →
      a * d - b * c ≠ 0 ∧ a ≠ 0 ∧ b ≠ 0 ∧ c ≠ 0 ∧ d ≠ 0 := by
  intro fuel
  induction fuel with
  | zero => intro st a b c d st' h; exact Option.noConfusion h
  | succ f ih =>
    intro st a b c d st' h
    simp only [drawSysCoeffs] at h
    split at h
    · simp only [Option.some_inj, Prod.mk.injEq] at h
      obtain ⟨rfl, rfl, rfl, rfl, rfl⟩ := h
      exact ⟨by assumption, orDefault_ne_zero _ _ (by norm_num),
        orDefault_ne_zero _ _ (by norm_num), orDefault_ne_zero _ _ (by norm_num),
        orDefault_ne_zero _ _ (by norm_num)⟩
    · exact ih _ _ _ _ _ _ h
